import Mathlib

/-!
Verification of the Twitter-like data-streaming generator.

Shallow embedding of `src/business_system/data_generator.py`,
`src/business_system/database_manager.py` and the scheduler wiring in
`src/business_system/app.py`, together with proofs about the claims of the
specification.

Modelling conventions:

* The module-level `random` stream is a `List Nat` of pre-drawn values,
  consumed one value per call (`random.random() < p` is modelled as
  `draw % 1000 < p * 1000`; `random.randint(a, b)` as `a + draw % (b + 1 - a)`;
  `random.choice` / `random.sample` consume one draw per selected element).
  An exhausted stream yields `0`.
* The Faker generator is an independent stream of strings (`List String`);
  it is a *separate* random source, exactly as `faker.Faker()` keeps its own
  generator, independent of the module-level `random` state.
* Storage is modelled relationally after the DDL in
  `DatabaseManager.init_database`: the `users`, `tweets` and `follows`
  tables with their UNIQUE / CHECK / FOREIGN KEY constraints, with
  `SERIAL` ids drawn from explicit `next…Id` counters.
* Each `execute_query` call consumes one entry from an error-injection
  stream `env : List Bool` (`false` = the call raises a storage error);
  an exhausted stream means no injected failures.  Constraint violations
  additionally make the call raise, as in PostgreSQL.
* Python exceptions are `Except String`; a `try/except` in the source
  corresponds to a `match` absorbing the `.error` case.  Because exceptions
  do not roll back state, fallible generator functions return
  `Except String α × GenState`: the state component is the state at the
  raise point.
* Timestamps (`created_at`) carry no behaviour relevant to any claim and
  are omitted from row types.
-/

namespace DataPipeline

/-- One pre-drawn value of the module-level `random` stream. -/
def drawRaw : List Nat → Nat × List Nat
  | [] => (0, [])
  | x :: r => (x, r)

/-- One value of the Faker string stream. -/
def takeFake : List String → String × List String
  | [] => ("", [])
  | x :: r => (x, r)

/-- Model: `n` consecutive Faker strings. -/
def takeFakes : Nat → List String → List String × List String
  | 0, fake => ([], fake)
  | n + 1, fake =>
    let (w, fake) := takeFake fake
    let (ws, fake') := takeFakes n fake
    (w :: ws, fake')

/-- One entry of the storage error-injection stream (`false` = this
`execute_query` call raises). An exhausted stream injects no failures. -/
def takeEnv : List Bool → Bool × List Bool
  | [] => (true, [])
  | b :: r => (b, r)

/-- A row of the `users` table (schema of `init_database`). -/
structure UserRow where
  user_id : Nat
  username : String
  email : String
  full_name : String
  bio : String
  followers_count : Nat
  following_count : Nat
deriving Repr, DecidableEq

/-- A row of the `tweets` table. -/
structure TweetRow where
  tweet_id : Nat
  user_id : Nat
  content : String
  hashtags : List String
  mentions : List String
  likes_count : Nat
  retweets_count : Nat
  reply_to_tweet_id : Option Nat
deriving Repr, DecidableEq

/-- A row of the `follows` table. -/
structure FollowRow where
  follow_id : Nat
  follower_id : Nat
  following_id : Nat
deriving Repr, DecidableEq

/-- The relational store: the three tables plus the `SERIAL` counters. -/
structure DB where
  users : List UserRow
  tweets : List TweetRow
  follows : List FollowRow
  nextUserId : Nat
  nextTweetId : Nat
  nextFollowId : Nat
deriving Repr, DecidableEq

/-- The `user_id` column of the `users` table. -/
def DB.userIds (db : DB) : List Nat := db.users.map (fun u => u.user_id)

/-- The `tweet_id` column of the `tweets` table. -/
def DB.tweetIds (db : DB) : List Nat := db.tweets.map (fun t => t.tweet_id)

/-- The `(follower_id, following_id)` pairs of the `follows` table. -/
def DB.followPairs (db : DB) : List (Nat × Nat) :=
  db.follows.map (fun r => (r.follower_id, r.following_id))

namespace DatabaseManager

/-- Model: `get_user_ids`: `SELECT user_id FROM users LIMIT 100`; the source
catches any error and returns `[]`. -/
def get_user_ids (db : DB) (env : List Bool) : List Nat × List Bool :=
  let (ok, env) := takeEnv env
  if ok then ((db.userIds).take 100, env) else ([], env)

/-- Model: `get_random_tweet_id`: `SELECT tweet_id FROM tweets ORDER BY RANDOM()
LIMIT 1`; the row pick is server-side randomness (it consumes none of the
client's `random` stream) and is modelled as the first row; the source
catches any error and returns `None`. -/
def get_random_tweet_id (db : DB) (env : List Bool) : Option Nat × List Bool :=
  let (ok, env) := takeEnv env
  if ok then ((db.tweets.head?).map (fun t => t.tweet_id), env) else (none, env)

/-- Model: `check_follow_exists`: `SELECT 1 FROM follows WHERE follower_id = %s AND
following_id = %s`; on error the source returns `True`
("Assume exists to prevent duplicates on error"). -/
def check_follow_exists (f g : Nat) (db : DB) (env : List Bool) :
    Bool × List Bool :=
  let (ok, env) := takeEnv env
  if ok then
    (db.follows.any (fun r => r.follower_id = f && r.following_id = g), env)
  else (true, env)

/-- Model: `INSERT INTO users … RETURNING user_id`: raises on injected storage
failure or on a UNIQUE(username) / UNIQUE(email) violation; on success
appends the row with the next `SERIAL` id. -/
def execInsertUser (username email full_name bio : String) (fc foc : Nat)
    (db : DB) (env : List Bool) : Except String (Nat × DB) × List Bool :=
  let (ok, env) := takeEnv env
  if !ok then (.error "storage error", env)
  else if db.users.any (fun u => u.username = username || u.email = email) then
    (.error "unique violation", env)
  else
    (.ok (db.nextUserId,
      { db with
        users := db.users ++
          [{ user_id := db.nextUserId, username := username, email := email,
             full_name := full_name, bio := bio,
             followers_count := fc, following_count := foc }],
        nextUserId := db.nextUserId + 1 }), env)

/-- Model: `INSERT INTO tweets … RETURNING tweet_id`: raises on injected storage
failure or on a FOREIGN KEY violation (author, reply target). -/
def execInsertTweet (uid : Nat) (content : String)
    (hashtags mentions : List String) (likes retweets : Nat)
    (reply : Option Nat) (db : DB) (env : List Bool) :
    Except String (Nat × DB) × List Bool :=
  let (ok, env) := takeEnv env
  if !ok then (.error "storage error", env)
  else if !(db.userIds.contains uid) then (.error "fk violation", env)
  else if (match reply with
           | none => false
           | some r => !(db.tweetIds.contains r)) then
    (.error "fk violation", env)
  else
    (.ok (db.nextTweetId,
      { db with
        tweets := db.tweets ++
          [{ tweet_id := db.nextTweetId, user_id := uid, content := content,
             hashtags := hashtags, mentions := mentions,
             likes_count := likes, retweets_count := retweets,
             reply_to_tweet_id := reply }],
        nextTweetId := db.nextTweetId + 1 }), env)

/-- Model: `INSERT INTO follows … RETURNING follow_id`: raises on injected storage
failure, on `UNIQUE(follower_id, following_id)`, on
`CHECK (follower_id != following_id)`, or on a FOREIGN KEY violation. -/
def execInsertFollow (f g : Nat) (db : DB) (env : List Bool) :
    Except String (Nat × DB) × List Bool :=
  let (ok, env) := takeEnv env
  if !ok then (.error "storage error", env)
  else if db.follows.any (fun r => r.follower_id = f && r.following_id = g) then
    (.error "unique violation", env)
  else if f = g then (.error "check violation", env)
  else if !(db.userIds.contains f && db.userIds.contains g) then
    (.error "fk violation", env)
  else
    (.ok (db.nextFollowId,
      { db with
        follows := db.follows ++
          [{ follow_id := db.nextFollowId, follower_id := f, following_id := g }],
        nextFollowId := db.nextFollowId + 1 }), env)

/-- The per-row effect of `UPDATE users SET following_count =
following_count + 1 WHERE user_id = %s`. -/
def bumpFollowing (uid : Nat) (u : UserRow) : UserRow :=
  if u.user_id = uid then { u with following_count := u.following_count + 1 } else u

/-- The per-row effect of `UPDATE users SET followers_count =
followers_count + 1 WHERE user_id = %s`. -/
def bumpFollowers (uid : Nat) (u : UserRow) : UserRow :=
  if u.user_id = uid then { u with followers_count := u.followers_count + 1 } else u

/-- Model: `UPDATE users SET following_count = following_count + 1 WHERE user_id = %s`. -/
def execUpdFollowing (uid : Nat) (db : DB) (env : List Bool) :
    Except String DB × List Bool :=
  let (ok, env) := takeEnv env
  if !ok then (.error "storage error", env)
  else (.ok { db with users := db.users.map (bumpFollowing uid) }, env)

/-- Model: `UPDATE users SET followers_count = followers_count + 1 WHERE user_id = %s`. -/
def execUpdFollowers (uid : Nat) (db : DB) (env : List Bool) :
    Except String DB × List Bool :=
  let (ok, env) := takeEnv env
  if !ok then (.error "storage error", env)
  else (.ok { db with users := db.users.map (bumpFollowers uid) }, env)

end DatabaseManager

/-- The full state a `DataGenerator` cycle acts on: the in-memory user-id
cache `user_ids`, the module-level `random` stream, the Faker stream, the
storage error-injection stream and the store itself. -/
structure GenState where
  user_ids : List Nat
  rng : List Nat
  fake : List String
  env : List Bool
  db : DB
deriving Repr, DecidableEq

/-- The two distinct positions chosen by `random.sample(·, 2)` over `n`
elements: the first uniform over `n` positions, the second uniform over
the remaining `n - 1`. -/
def sampleIdx2 (n d1 d2 : Nat) : Nat × Nat :=
  (d1 % n, if d2 % (n - 1) < d1 % n then d2 % (n - 1) else d2 % (n - 1) + 1)

/-- Model: `random.sample(xs, 2)`: two distinct positions, one draw per selected
element. Requires `2 ≤ xs.length` (else the caller's `random.sample`
raises `ValueError`, handled at the call sites). -/
def sampleTwo (xs : List Nat) (d1 d2 : Nat) : Nat × Nat :=
  (xs.getD (sampleIdx2 xs.length d1 d2).1 0, xs.getD (sampleIdx2 xs.length d1 d2).2 0)

/-- Model: `random.sample(xs, 1)`: one uniformly drawn element. -/
def sampleOne (xs : List Nat) (d : Nat) : Nat :=
  xs.getD (d % xs.length) 0

/-- The mention token `f"@user_{uid}"`. -/
def mentionStr (uid : Nat) : String := "@user_" ++ Nat.repr uid

/-- The payload assembled by `generate_tweet_data`. -/
structure TweetData where
  user_id : Nat
  content : String
  hashtags : List String
  mentions : List String
  likes_count : Nat
  retweets_count : Nat
  reply_to_tweet_id : Option Nat
deriving Repr, DecidableEq

namespace DataGenerator

open DatabaseManager

/-- Model: `create_user`: draws username/email/full name/bio from Faker, seeds
`followers_count = random.randint(0, 1000)` and
`following_count = random.randint(0, 500)`, inserts the row and returns
the new id; any error is caught and `None` is returned. -/
def create_user (s : GenState) : Option Nat × GenState :=
  match execInsertUser (takeFake s.fake).1 (takeFake (takeFake s.fake).2).1
      (takeFake (takeFake (takeFake s.fake).2).2).1
      (takeFake (takeFake (takeFake (takeFake s.fake).2).2).2).1
      ((drawRaw s.rng).1 % 1001) ((drawRaw (drawRaw s.rng).2).1 % 501)
      s.db s.env with
  | (.ok (uid, db), env) =>
    (some uid,
     { s with
       fake := (takeFake (takeFake (takeFake (takeFake s.fake).2).2).2).2,
       rng := (drawRaw (drawRaw s.rng).2).2, env := env, db := db })
  | (.error _, env) =>
    (none,
     { s with
       fake := (takeFake (takeFake (takeFake (takeFake s.fake).2).2).2).2,
       rng := (drawRaw (drawRaw s.rng).2).2, env := env })

/-- The pattern `new_user_id = self.create_user(); if new_user_id:
self.user_ids.append(new_user_id)` (Python truthiness: id `0` is falsy). -/
def registerNewUser (s : GenState) : GenState :=
  match create_user s with
  | (some uid, s') =>
    if uid ≠ 0 then { s' with user_ids := s'.user_ids ++ [uid] } else s'
  | (none, s') => s'

/-- The bootstrap loop `for _ in range(n): …` of `load_or_create_users`. -/
def bootstrapLoop : Nat → GenState → GenState
  | 0, s => s
  | n + 1, s => bootstrapLoop n (registerNewUser s)

/-- The first statement of `load_or_create_users`:
`self.user_ids = self.db_manager.get_user_ids()`. -/
def loadStep (s : GenState) : GenState :=
  { s with
    user_ids := (get_user_ids s.db s.env).1,
    env := (get_user_ids s.db s.env).2 }

/-- Model: `load_or_create_users`: overwrite the cache with
`get_user_ids()`; if the result is empty, create 20 initial users.
(Both `get_user_ids` and `create_user` catch their own errors, so the
surrounding `try` never fires.) -/
def load_or_create_users (s : GenState) : GenState :=
  if (loadStep s).user_ids = [] then bootstrapLoop 20 (loadStep s) else loadStep s

/-- The reply decision closing `generate_tweet_data`: with 20% probability
(`dp` is the pre-drawn per-mille value) look up a random existing tweet id
as the reply target, else post top-level. -/
def replyStep (user_id : Nat) (content : String)
    (hashtags mentions : List String) (likes retweets dp : Nat)
    (s : GenState) : Except String TweetData × GenState :=
  if dp % 1000 < 200 then
    let tq := get_random_tweet_id s.db s.env
    (.ok { user_id := user_id, content := content, hashtags := hashtags,
           mentions := mentions, likes_count := likes,
           retweets_count := retweets, reply_to_tweet_id := tq.1 },
     { s with env := tq.2 })
  else
    (.ok { user_id := user_id, content := content, hashtags := hashtags,
           mentions := mentions, likes_count := likes,
           retweets_count := retweets, reply_to_tweet_id := none }, s)

/-- The tail of `generate_tweet_data` after the hydrate / opportunistic
user-creation steps: `random.choice` of the author (raises `IndexError`
on an empty cache), content, 30%-hashtags, 20%-mentions, counts, and the
20%-reply lookup.  Intermediate draws are threaded by projections:
`dX.1` is the drawn value, `dX.2` the remaining stream. -/
def tweetFields (s : GenState) : Except String TweetData × GenState :=
  if s.user_ids = [] then (.error "IndexError: empty user list", s)
  else
    let dc := drawRaw s.rng
    let user_id := s.user_ids.getD (dc.1 % s.user_ids.length) 0
    let cf := takeFake s.fake
    let dh := drawRaw dc.2
    let hwf :=
      if dh.1 % 1000 < 300 then
        let dn := drawRaw dh.2
        let ws := takeFakes (1 + dn.1 % 3) cf.2
        (ws.1.map (fun w => "#" ++ w), dn.2, ws.2)
      else (([] : List String), dh.2, cf.2)
    let dm := drawRaw hwf.2.1
    let mr :=
      if dm.1 % 1000 < 200 then
        if s.user_ids.length = 1 then
          let d1 := drawRaw dm.2
          ([sampleOne s.user_ids d1.1], d1.2)
        else
          let d1 := drawRaw dm.2
          let d2 := drawRaw d1.2
          let p := sampleTwo s.user_ids d1.1 d2.1
          ([p.1, p.2], d2.2)
      else (([] : List Nat), dm.2)
    let mentions := (mr.1.filter (fun uid => uid ≠ user_id)).map mentionStr
    let dl := drawRaw mr.2
    let dr := drawRaw dl.2
    let dp := drawRaw dr.2
    replyStep user_id cf.1 hwf.1 mentions (dl.1 % 1001) (dr.1 % 101) dp.1
      { s with rng := dp.2, fake := hwf.2.2 }

/-- Model: `if not self.user_ids: self.load_or_create_users()`. -/
def hydrateIfEmpty (s : GenState) : GenState :=
  if s.user_ids = [] then load_or_create_users s else s

/-- Model: `if len(self.user_ids) < 2: self.load_or_create_users()`. -/
def hydrateIfFewerThanTwo (s : GenState) : GenState :=
  if s.user_ids.length < 2 then load_or_create_users s else s

/-- Model: `if random.random() < threshold/1000: <create and register a user>`:
the opportunistic user creation inside the two generation methods
(threshold 100 = the tweet path's 10%, 50 = the follow path's 5%). -/
def maybeCreate (threshold : Nat) (s : GenState) : GenState :=
  if (drawRaw s.rng).1 % 1000 < threshold then
    registerNewUser { s with rng := (drawRaw s.rng).2 }
  else { s with rng := (drawRaw s.rng).2 }

/-- The head of `generate_tweet_data`: hydrate if the cache is empty, then
with 10% probability create and register a new user. -/
def tweetPrep (s : GenState) : GenState := maybeCreate 100 (hydrateIfEmpty s)

/-- Model: `generate_tweet_data`: hydrate if the cache is empty, create a new user
with 10% probability, then assemble the tweet payload. -/
def generate_tweet_data (s : GenState) : Except String TweetData × GenState :=
  tweetFields (tweetPrep s)

/-- The tail of `generate_follow_data`: `random.sample(self.user_ids, 2)`
(raises `ValueError` when fewer than two ids are cached). -/
def followPairOf (s : GenState) : Except String (Nat × Nat) × GenState :=
  if s.user_ids.length < 2 then
    (.error "ValueError: sample larger than population", s)
  else
    let d1 := drawRaw s.rng
    let d2 := drawRaw d1.2
    (.ok (sampleTwo s.user_ids d1.1 d2.1), { s with rng := d2.2 })

/-- The head of `generate_follow_data`: hydrate if fewer than two ids are
cached, then with 5% probability create and register a new user. -/
def followPrep (s : GenState) : GenState :=
  maybeCreate 50 (hydrateIfFewerThanTwo s)

/-- Model: `generate_follow_data`: hydrate if fewer than two ids are cached,
create a new user with 5% probability, then sample a distinct pair. -/
def generate_follow_data (s : GenState) : Except String (Nat × Nat) × GenState :=
  followPairOf (followPrep s)

/-- Model: `insert_tweet`: generate a payload and insert it; every error (from
generation or storage) is caught at this boundary. -/
def insert_tweet (s : GenState) : GenState :=
  match generate_tweet_data s with
  | (.error _, s') => s'
  | (.ok td, s') =>
    match execInsertTweet td.user_id td.content td.hashtags td.mentions
        td.likes_count td.retweets_count td.reply_to_tweet_id s'.db s'.env with
    | (.error _, env) => { s' with env := env }
    | (.ok (_, db), env) => { s' with db := db, env := env }

/-- The body of `insert_follow` after payload generation: check the pair's
existence (assume it exists if the check errors), insert, and — when the
returned id is truthy — increment the two derived counters.  Errors are
caught at this boundary, leaving the writes performed so far in place. -/
def persistFollowPair (f g : Nat) (s : GenState) : GenState :=
  let c := DatabaseManager.check_follow_exists f g s.db s.env
  let s1 : GenState := { s with env := c.2 }
  if c.1 then s1
  else
    match execInsertFollow f g s1.db s1.env with
    | (.error _, env) => { s1 with env := env }
    | (.ok (fid, db), env) =>
      let s2 : GenState := { s1 with db := db, env := env }
      if fid = 0 then s2
      else
        match execUpdFollowing f s2.db s2.env with
        | (.error _, env) => { s2 with env := env }
        | (.ok db, env) =>
          let s3 : GenState := { s2 with db := db, env := env }
          match execUpdFollowers g s3.db s3.env with
          | (.error _, env) => { s3 with env := env }
          | (.ok db, env) => { s3 with db := db, env := env }

/-- Model: `insert_follow`: generate a pair and persist it; every error is caught
at this boundary. -/
def insert_follow (s : GenState) : GenState :=
  match generate_follow_data s with
  | (.error _, s') => s'
  | (.ok p, s') => persistFollowPair p.1 p.2 s'

/-- Which of the two top-level branches a cycle took. -/
inductive EventKind
  | tweet
  | follow
deriving Repr, DecidableEq

/-- Model: `insert_random_data` with the chosen branch made observable: one draw
decides 70% tweet / 30% follow, then the corresponding insert runs; its
own `try/except` needs nothing to catch because both branches already
absorb all errors. -/
def cycleStep (s : GenState) : EventKind × GenState :=
  let (d, rng) := drawRaw s.rng
  let s := { s with rng := rng }
  if d % 1000 < 700 then (.tweet, insert_tweet s) else (.follow, insert_follow s)

/-- Model: `insert_random_data`: the per-cycle unit of work the scheduler invokes. -/
def insert_random_data (s : GenState) : GenState := (cycleStep s).2

/-- Model: `n` consecutive scheduled cycles, recording each cycle's branch kind. -/
def run : Nat → GenState → List EventKind × GenState
  | 0, s => ([], s)
  | n + 1, s =>
    let ks := cycleStep s
    let r := run n ks.2
    (ks.1 :: r.1, r.2)

end DataGenerator

namespace Scheduler

/-- Modelled from the spec: the per-slot scheduler state.  The scheduling
engine itself (APScheduler's interval trigger with `max_instances=1`,
configured in `TwitterApp.setup_scheduler`) is third-party library code not
under `src/`; §4.6 of the spec describes it as a per-slot
`{Idle, Running}` machine. -/
inductive SlotState
  | idle
  | running
deriving Repr, DecidableEq

/-- Modelled from the spec: the events driving the slot — the interval
timer's ticks and the completion of a cycle. -/
inductive SchedEvent
  | tick
  | complete
deriving Repr, DecidableEq

/-- Modelled from the spec: one transition of the slot machine, paired with
the number of cycles currently executing.  A tick on an idle slot starts a
cycle; a tick on a running slot is dropped (no queuing, no catch-up); a
completion returns the slot to idle. -/
def schedStep : SlotState × Nat → SchedEvent → SlotState × Nat
  | (.idle, c), .tick => (.running, c + 1)
  | (.running, c), .tick => (.running, c)
  | (.running, c), .complete => (.idle, c - 1)
  | (.idle, c), .complete => (.idle, c)

/-- The slot machine run from its initial state (idle, no cycle in flight)
over an arbitrary event sequence. -/
def schedExec (evs : List SchedEvent) : SlotState × Nat :=
  evs.foldl schedStep (.idle, 0)

end Scheduler

/-! ## Derived observations and invariants -/

/-- The `followers_count` of the first row with id `uid` in a row list
(`0` if no such row). -/
def rowsFollowersCount (users : List UserRow) (uid : Nat) : Nat :=
  match users.find? (fun u => u.user_id = uid) with
  | some u => u.followers_count
  | none => 0

/-- The stored `followers_count` of user `uid` (`0` if no such row). -/
def followersCountOf (db : DB) (uid : Nat) : Nat :=
  rowsFollowersCount db.users uid

/-- Number of Follow rows with the given ordered pair. -/
def countPair (db : DB) (f g : Nat) : Nat :=
  (db.follows.filter (fun r => r.follower_id = f && r.following_id = g)).length

/-- A sequence of follow-persist requests applied through the body of
`insert_follow`. -/
def applyFollows (ps : List (Nat × Nat)) (s : GenState) : GenState :=
  ps.foldl (fun s p => DataGenerator.persistFollowPair p.1 p.2 s) s

/-- The `(username, email)` pairs the bootstrap loop will feed to
`create_user` from the Faker stream (4 Faker strings per user: username,
email, full name, bio). -/
def plannedProfiles : Nat → List String → List (String × String)
  | 0, _ => []
  | n + 1, fake => (fake.getD 0 "", fake.getD 1 "") :: plannedProfiles n (fake.drop 4)

/-- The `SERIAL`-id well-formedness of the store: every row id is below its
table's next-id counter ("storage assigns a fresh id to every created
user"). -/
def dbWF (db : DB) : Prop :=
  (∀ u ∈ db.users, u.user_id < db.nextUserId) ∧
  (db.userIds).Nodup ∧
  (∀ r ∈ db.follows, r.follower_id < db.nextUserId ∧ r.following_id < db.nextUserId)

instance : DecidablePred dbWF := fun db => by
  unfold dbWF
  infer_instance

/-- The cache invariant: the in-memory id list is duplicate-free, all its
entries are ids the store has already assigned, and the store itself is
well-formed. -/
def cacheInv (s : GenState) : Prop :=
  s.user_ids.Nodup ∧ (∀ i ∈ s.user_ids, i < s.db.nextUserId) ∧ dbWF s.db

instance : DecidablePred cacheInv := fun s => by
  unfold cacheInv
  infer_instance


/-! ## Lemmas about the storage layer -/

namespace DatabaseManager

lemma takeEnv_nil : takeEnv [] = (true, []) := rfl

lemma check_follow_exists_ok (f g : Nat) (db : DB) (env rest : List Bool)
    (h : takeEnv env = (true, rest)) :
    check_follow_exists f g db env =
      (db.follows.any (fun r => r.follower_id = f && r.following_id = g), rest) := by
  unfold check_follow_exists
  rw [h]
  simp

lemma check_follow_exists_fail (f g : Nat) (db : DB) (env rest : List Bool)
    (h : takeEnv env = (false, rest)) :
    check_follow_exists f g db env = (true, rest) := by
  unfold check_follow_exists
  rw [h]
  simp

/-- The row appended by a successful `INSERT INTO users`. -/
def newUserRow (un em fn bi : String) (fc foc uid : Nat) : UserRow :=
  { user_id := uid, username := un, email := em, full_name := fn, bio := bi,
    followers_count := fc, following_count := foc }

lemma execInsertUser_spec (un em fn bi : String) (fc foc : Nat) (db : DB)
    (env : List Bool) :
    (execInsertUser un em fn bi fc foc db env).2 = (takeEnv env).2 ∧
    (match (execInsertUser un em fn bi fc foc db env).1 with
     | .error _ => True
     | .ok (uid, db') => uid = db.nextUserId ∧
         db' = { db with
                 users := db.users ++ [newUserRow un em fn bi fc foc db.nextUserId],
                 nextUserId := db.nextUserId + 1 }) := by
  unfold execInsertUser newUserRow
  rcases h : takeEnv env with ⟨ok, rest⟩
  simp only [h]
  split_ifs <;> simp

lemma execInsertUser_ok (un em fn bi : String) (fc foc : Nat) (db : DB)
    (env rest : List Bool) (h : takeEnv env = (true, rest))
    (hfresh : db.users.any (fun u => u.username = un || u.email = em) = false) :
    execInsertUser un em fn bi fc foc db env =
      (.ok (db.nextUserId,
        { db with
          users := db.users ++ [newUserRow un em fn bi fc foc db.nextUserId],
          nextUserId := db.nextUserId + 1 }), rest) := by
  unfold execInsertUser newUserRow
  rw [h]
  simp only [Bool.not_true, Bool.false_eq_true, if_false, hfresh]

lemma execInsertFollow_ok (f g : Nat) (db : DB) (env rest : List Bool)
    (h : takeEnv env = (true, rest))
    (hnot : db.follows.any (fun r => r.follower_id = f && r.following_id = g) = false)
    (hne : f ≠ g)
    (hf : f ∈ db.userIds) (hg : g ∈ db.userIds) :
    execInsertFollow f g db env =
      (.ok (db.nextFollowId,
        { db with
          follows := db.follows ++
            [{ follow_id := db.nextFollowId, follower_id := f, following_id := g }],
          nextFollowId := db.nextFollowId + 1 }), rest) := by
  unfold execInsertFollow
  rw [h]
  simp [hnot, hne, hf, hg]

lemma execInsertFollow_spec (f g : Nat) (db : DB) (env : List Bool) :
    (match (execInsertFollow f g db env).1 with
     | .error _ => True
     | .ok (fid, db') => fid = db.nextFollowId ∧
         f ∈ db.userIds ∧ g ∈ db.userIds ∧
         db' = { db with
                 follows := db.follows ++
                   [{ follow_id := db.nextFollowId, follower_id := f,
                      following_id := g }],
                 nextFollowId := db.nextFollowId + 1 }) := by
  unfold execInsertFollow
  rcases h : takeEnv env with ⟨ok, rest⟩
  simp only [h]
  split_ifs <;> simp_all

lemma execUpdFollowing_ok (uid : Nat) (db : DB) (env rest : List Bool)
    (h : takeEnv env = (true, rest)) :
    execUpdFollowing uid db env =
      (.ok { db with users := db.users.map (bumpFollowing uid) }, rest) := by
  unfold execUpdFollowing
  rw [h]
  simp

lemma execUpdFollowing_spec (uid : Nat) (db : DB) (env : List Bool) :
    (match (execUpdFollowing uid db env).1 with
     | .error _ => True
     | .ok db' => db' = { db with users := db.users.map (bumpFollowing uid) }) := by
  unfold execUpdFollowing
  rcases h : takeEnv env with ⟨ok, rest⟩
  simp only [h]
  split_ifs <;> simp

lemma execUpdFollowers_ok (uid : Nat) (db : DB) (env rest : List Bool)
    (h : takeEnv env = (true, rest)) :
    execUpdFollowers uid db env =
      (.ok { db with users := db.users.map (bumpFollowers uid) }, rest) := by
  unfold execUpdFollowers
  rw [h]
  simp

lemma execUpdFollowers_spec (uid : Nat) (db : DB) (env : List Bool) :
    (match (execUpdFollowers uid db env).1 with
     | .error _ => True
     | .ok db' => db' = { db with users := db.users.map (bumpFollowers uid) }) := by
  unfold execUpdFollowers
  rcases h : takeEnv env with ⟨ok, rest⟩
  simp only [h]
  split_ifs <;> simp

lemma execInsertTweet_spec (uid : Nat) (content : String)
    (hashtags mentions : List String) (likes retweets : Nat)
    (reply : Option Nat) (db : DB) (env : List Bool) :
    (match (execInsertTweet uid content hashtags mentions likes retweets reply
        db env).1 with
     | .error _ => True
     | .ok (tid, db') => tid = db.nextTweetId ∧
         db' = { db with
                 tweets := db.tweets ++
                   [{ tweet_id := db.nextTweetId, user_id := uid,
                      content := content, hashtags := hashtags,
                      mentions := mentions, likes_count := likes,
                      retweets_count := retweets, reply_to_tweet_id := reply }],
                 nextTweetId := db.nextTweetId + 1 }) := by
  unfold execInsertTweet
  rcases h : takeEnv env with ⟨ok, rest⟩
  simp only [h]
  split_ifs <;> simp

/-- Fact: `bumpFollowing` never changes a row's id or its `followers_count`. -/
lemma bumpFollowing_id (uid : Nat) (u : UserRow) :
    (bumpFollowing uid u).user_id = u.user_id ∧
    (bumpFollowing uid u).followers_count = u.followers_count := by
  unfold bumpFollowing
  split_ifs <;> simp

/-- Fact: `bumpFollowers` never changes a row's id; it adds one to
`followers_count` exactly on rows whose id is `uid`. -/
lemma bumpFollowers_id (uid : Nat) (u : UserRow) :
    (bumpFollowers uid u).user_id = u.user_id ∧
    (bumpFollowers uid u).followers_count =
      (if u.user_id = uid then u.followers_count + 1 else u.followers_count) := by
  unfold bumpFollowers
  split_ifs <;> simp

end DatabaseManager

/-! ## Lemmas about the generator -/

namespace DataGenerator

open DatabaseManager

/-- Full characterisation of `create_user`: it never touches the cache,
consumes one storage call, leaves tweets/follows alone, and either fails
(store untouched) or appends one fresh-id row whose `followers_count` is
the seeded `randint(0, 1000)` draw. -/
lemma create_user_spec (s : GenState) :
    (create_user s).2.user_ids = s.user_ids ∧
    (create_user s).2.env = (takeEnv s.env).2 ∧
    (create_user s).2.db.tweets = s.db.tweets ∧
    (create_user s).2.db.follows = s.db.follows ∧
    (create_user s).2.db.nextTweetId = s.db.nextTweetId ∧
    (create_user s).2.db.nextFollowId = s.db.nextFollowId ∧
    (((create_user s).1 = none ∧ (create_user s).2.db = s.db) ∨
     ((create_user s).1 = some s.db.nextUserId ∧
      (create_user s).2.db.nextUserId = s.db.nextUserId + 1 ∧
      ∃ row : UserRow, row.user_id = s.db.nextUserId ∧
        row.followers_count = (drawRaw s.rng).1 % 1001 ∧
        (create_user s).2.db.users = s.db.users ++ [row])) := by
  have hspec := execInsertUser_spec (takeFake s.fake).1 (takeFake (takeFake s.fake).2).1
      (takeFake (takeFake (takeFake s.fake).2).2).1
      (takeFake (takeFake (takeFake (takeFake s.fake).2).2).2).1
      ((drawRaw s.rng).1 % 1001) ((drawRaw (drawRaw s.rng).2).1 % 501) s.db s.env
  unfold create_user
  rcases hq : execInsertUser (takeFake s.fake).1 (takeFake (takeFake s.fake).2).1
      (takeFake (takeFake (takeFake s.fake).2).2).1
      (takeFake (takeFake (takeFake (takeFake s.fake).2).2).2).1
      ((drawRaw s.rng).1 % 1001) ((drawRaw (drawRaw s.rng).2).1 % 501) s.db s.env
    with ⟨res, env'⟩
  rw [hq] at hspec
  obtain ⟨henv, hm⟩ := hspec
  cases res with
  | error e =>
    exact ⟨rfl, henv, rfl, rfl, rfl, rfl, Or.inl ⟨rfl, rfl⟩⟩
  | ok v =>
    rcases v with ⟨uid, db'⟩
    simp only [] at hm
    obtain ⟨h1, h2⟩ := hm
    subst h1
    subst h2
    refine ⟨rfl, henv, rfl, rfl, rfl, rfl, Or.inr ⟨rfl, rfl, ?_⟩⟩
    exact ⟨newUserRow (takeFake s.fake).1 (takeFake (takeFake s.fake).2).1
        (takeFake (takeFake (takeFake s.fake).2).2).1
        (takeFake (takeFake (takeFake (takeFake s.fake).2).2).2).1
        ((drawRaw s.rng).1 % 1001) ((drawRaw (drawRaw s.rng).2).1 % 501)
        s.db.nextUserId, rfl, rfl, rfl⟩

/-- Fact: `registerNewUser` leaves tweets/follows/next follow and tweet ids
alone, and either keeps the cache or appends one id to it. -/
lemma registerNewUser_spec (s : GenState) :
    (registerNewUser s).db.tweets = s.db.tweets ∧
    (registerNewUser s).db.follows = s.db.follows ∧
    (registerNewUser s).db.nextTweetId = s.db.nextTweetId ∧
    (registerNewUser s).db.nextFollowId = s.db.nextFollowId ∧
    ((registerNewUser s).user_ids = s.user_ids ∨
     ∃ uid, (registerNewUser s).user_ids = s.user_ids ++ [uid]) := by
  obtain ⟨hids, henv, ht, hf, hnt, hnf, hcase⟩ := create_user_spec s
  unfold registerNewUser
  rcases hc : create_user s with ⟨uid?, s'⟩
  rw [hc] at hids ht hf hnt hnf
  cases uid? with
  | none => exact ⟨ht, hf, hnt, hnf, Or.inl hids⟩
  | some uid =>
    by_cases h0 : uid = 0
    · simp only [h0, ne_eq, not_true_eq_false, if_false]
      exact ⟨ht, hf, hnt, hnf, Or.inl hids⟩
    · simp only [ne_eq, h0, not_false_eq_true, if_true]
      exact ⟨ht, hf, hnt, hnf, Or.inr ⟨uid, by rw [hids]⟩⟩

/-- Fact: `bootstrapLoop` never touches tweets or follows. -/
lemma bootstrapLoop_frame (n : Nat) :
    ∀ s : GenState,
      (bootstrapLoop n s).db.tweets = s.db.tweets ∧
      (bootstrapLoop n s).db.follows = s.db.follows := by
  induction n with
  | zero => intro s; exact ⟨rfl, rfl⟩
  | succ n ih =>
    intro s
    obtain ⟨ht, hf, _, _, _⟩ := registerNewUser_spec s
    obtain ⟨ht', hf'⟩ := ih (registerNewUser s)
    exact ⟨ht'.trans ht, hf'.trans hf⟩

/-- Fact: `load_or_create_users` never touches tweets or follows. -/
lemma load_or_create_users_frame (s : GenState) :
    (load_or_create_users s).db.tweets = s.db.tweets ∧
    (load_or_create_users s).db.follows = s.db.follows := by
  unfold load_or_create_users
  by_cases h : (loadStep s).user_ids = []
  · rw [if_pos h]
    exact bootstrapLoop_frame 20 (loadStep s)
  · rw [if_neg h]
    exact ⟨rfl, rfl⟩

/-- Fact: `replyStep` reads but never writes the store and never touches the
cache. -/
lemma replyStep_frame (user_id : Nat) (content : String)
    (hashtags mentions : List String) (likes retweets dp : Nat)
    (s : GenState) :
    (replyStep user_id content hashtags mentions likes retweets dp s).2.db = s.db ∧
    (replyStep user_id content hashtags mentions likes retweets dp s).2.user_ids
      = s.user_ids := by
  unfold replyStep
  split <;> exact ⟨rfl, rfl⟩

/-- Fact: `tweetFields` reads but never writes the store and never touches the
cache. -/
lemma tweetFields_frame (s : GenState) :
    (tweetFields s).2.db = s.db ∧ (tweetFields s).2.user_ids = s.user_ids := by
  unfold tweetFields
  split
  · exact ⟨rfl, rfl⟩
  · exact replyStep_frame _ _ _ _ _ _ _ _

/-- Fact: `followPairOf` reads but never writes the store and never touches the
cache or the error stream. -/
lemma followPairOf_frame (s : GenState) :
    (followPairOf s).2.db = s.db ∧ (followPairOf s).2.user_ids = s.user_ids ∧
    (followPairOf s).2.env = s.env := by
  unfold followPairOf
  split <;> exact ⟨rfl, rfl, rfl⟩

/-- Fact: `maybeCreate` never touches tweets or follows. -/
lemma maybeCreate_frame (threshold : Nat) (s : GenState) :
    (maybeCreate threshold s).db.tweets = s.db.tweets ∧
    (maybeCreate threshold s).db.follows = s.db.follows := by
  unfold maybeCreate
  split
  · obtain ⟨ht, hf, _, _, _⟩ :=
      registerNewUser_spec { s with rng := (drawRaw s.rng).2 }
    exact ⟨ht, hf⟩
  · exact ⟨rfl, rfl⟩

/-- Fact: `hydrateIfEmpty` never touches tweets or follows. -/
lemma hydrateIfEmpty_frame (s : GenState) :
    (hydrateIfEmpty s).db.tweets = s.db.tweets ∧
    (hydrateIfEmpty s).db.follows = s.db.follows := by
  unfold hydrateIfEmpty
  split
  · exact load_or_create_users_frame s
  · exact ⟨rfl, rfl⟩

/-- Fact: `hydrateIfFewerThanTwo` never touches tweets or follows. -/
lemma hydrateIfFewerThanTwo_frame (s : GenState) :
    (hydrateIfFewerThanTwo s).db.tweets = s.db.tweets ∧
    (hydrateIfFewerThanTwo s).db.follows = s.db.follows := by
  unfold hydrateIfFewerThanTwo
  split
  · exact load_or_create_users_frame s
  · exact ⟨rfl, rfl⟩

/-- Fact: `generate_tweet_data` never touches follows. -/
lemma generate_tweet_data_follows (s : GenState) :
    (generate_tweet_data s).2.db.follows = s.db.follows := by
  unfold generate_tweet_data tweetPrep
  obtain ⟨hdb, _⟩ := tweetFields_frame (maybeCreate 100 (hydrateIfEmpty s))
  rw [hdb]
  exact ((maybeCreate_frame 100 _).2).trans (hydrateIfEmpty_frame s).2

/-- Fact: `generate_follow_data` never touches tweets. -/
lemma generate_follow_data_tweets (s : GenState) :
    (generate_follow_data s).2.db.tweets = s.db.tweets := by
  unfold generate_follow_data followPrep
  obtain ⟨hdb, _, _⟩ := followPairOf_frame (maybeCreate 50 (hydrateIfFewerThanTwo s))
  rw [hdb]
  exact ((maybeCreate_frame 50 _).1).trans (hydrateIfFewerThanTwo_frame s).1

/-- Fact: `insert_tweet` never touches follows. -/
lemma insert_tweet_follows (s : GenState) :
    (insert_tweet s).db.follows = s.db.follows := by
  unfold insert_tweet
  rcases hg : generate_tweet_data s with ⟨res, s'⟩
  have hfol : s'.db.follows = s.db.follows := by
    have := generate_tweet_data_follows s
    rw [hg] at this
    exact this
  cases res with
  | error e => exact hfol
  | ok td =>
    have hspec := execInsertTweet_spec td.user_id td.content td.hashtags
      td.mentions td.likes_count td.retweets_count td.reply_to_tweet_id
      s'.db s'.env
    rcases hq : execInsertTweet td.user_id td.content td.hashtags td.mentions
        td.likes_count td.retweets_count td.reply_to_tweet_id s'.db s'.env
      with ⟨r, env'⟩
    rw [hq] at hspec
    simp only [hq]
    cases r with
    | error e => exact hfol
    | ok v =>
      rcases v with ⟨tid, db'⟩
      simp only [] at hspec
      obtain ⟨-, h2⟩ := hspec
      subst h2
      exact hfol

/-- Fact: `persistFollowPair` never touches tweets. -/
lemma persistFollowPair_tweets (f g : Nat) (s : GenState) :
    (persistFollowPair f g s).db.tweets = s.db.tweets := by
  unfold persistFollowPair
  rcases hc : check_follow_exists f g s.db s.env with ⟨ex, env1⟩
  simp only [hc]
  split
  · rfl
  · have hspec := execInsertFollow_spec f g s.db env1
    rcases hq : execInsertFollow f g s.db env1 with ⟨r, env2⟩
    rw [hq] at hspec
    cases r with
    | error e => rfl
    | ok v =>
      rcases v with ⟨fid, db1⟩
      simp only [] at hspec ⊢
      obtain ⟨-, -, -, hdb1⟩ := hspec
      split_ifs
      · rw [hdb1]
      · have hu1 := execUpdFollowing_spec f db1 env2
        rcases hq2 : execUpdFollowing f db1 env2 with ⟨r2, env3⟩
        rw [hq2] at hu1
        cases r2 with
        | error e => simp only []; rw [hdb1]
        | ok db2 =>
          simp only [] at hu1 ⊢
          have hu2 := execUpdFollowers_spec g db2 env3
          rcases hq3 : execUpdFollowers g db2 env3 with ⟨r3, env4⟩
          rw [hq3] at hu2
          cases r3 with
          | error e => simp only []; rw [hu1, hdb1]
          | ok db3 =>
            simp only [] at hu2 ⊢
            rw [hu2, hu1, hdb1]

/-- Fact: `insert_follow` never touches tweets. -/
lemma insert_follow_tweets (s : GenState) :
    (insert_follow s).db.tweets = s.db.tweets := by
  unfold insert_follow
  rcases hg : generate_follow_data s with ⟨res, s'⟩
  have htw : s'.db.tweets = s.db.tweets := by
    have := generate_follow_data_tweets s
    rw [hg] at this
    exact this
  cases res with
  | error e => exact htw
  | ok p => exact (persistFollowPair_tweets p.1 p.2 s').trans htw


/-! ## The cache invariant and its preservation -/

/-- The properties of `sampleIdx2`: two in-range, distinct positions. -/
lemma sampleIdx2_spec (n d1 d2 : Nat) (h2 : 2 ≤ n) :
    (sampleIdx2 n d1 d2).1 < n ∧ (sampleIdx2 n d1 d2).2 < n ∧
    (sampleIdx2 n d1 d2).1 ≠ (sampleIdx2 n d1 d2).2 := by
  have ha : d1 % n < n := Nat.mod_lt _ (by omega)
  have hb : d2 % (n - 1) < n - 1 := Nat.mod_lt _ (by omega)
  unfold sampleIdx2
  refine ⟨ha, ?_, ?_⟩ <;> dsimp only <;> split_ifs <;> omega

/-- On a duplicate-free list of length at least two, `sampleTwo` returns
two distinct elements of the list. -/
lemma sampleTwo_spec (xs : List Nat) (d1 d2 : Nat) (h2 : 2 ≤ xs.length)
    (hnd : xs.Nodup) :
    (sampleTwo xs d1 d2).1 ≠ (sampleTwo xs d1 d2).2 ∧
    (sampleTwo xs d1 d2).1 ∈ xs ∧ (sampleTwo xs d1 d2).2 ∈ xs := by
  obtain ⟨hi1, hi2, hne⟩ := sampleIdx2_spec xs.length d1 d2 h2
  unfold sampleTwo
  rw [List.getD_eq_getElem xs 0 hi1, List.getD_eq_getElem xs 0 hi2]
  exact ⟨fun heq => hne ((hnd.getElem_inj_iff).1 heq),
    List.getElem_mem _, List.getElem_mem _⟩

/-- Mapping an id-preserving row transformation over `users` preserves
the store invariant. -/
lemma dbWF_mapBump (db : DB) (φ : UserRow → UserRow)
    (hφ : ∀ u, (φ u).user_id = u.user_id) (h : dbWF db) :
    dbWF { db with users := db.users.map φ } := by
  obtain ⟨hb, hnd, hfo⟩ := h
  refine ⟨?_, ?_, hfo⟩
  · intro u hu
    rcases List.mem_map.1 hu with ⟨v, hv, rfl⟩
    rw [hφ v]
    exact hb v hv
  · show ((db.users.map φ).map (fun u => u.user_id)).Nodup
    rw [List.map_map]
    have heq : db.users.map ((fun u => u.user_id) ∘ φ) =
        db.users.map (fun u => u.user_id) :=
      List.map_congr_left (fun a _ => hφ a)
    rw [heq]
    exact hnd

/-- Appending a follow row whose endpoints are existing user ids preserves
the store invariant. -/
lemma dbWF_append_follow (db : DB) (f g : Nat) (h : dbWF db)
    (hf : f ∈ db.userIds) (hg : g ∈ db.userIds) :
    dbWF { db with
           follows := db.follows ++
             [{ follow_id := db.nextFollowId, follower_id := f,
                following_id := g }],
           nextFollowId := db.nextFollowId + 1 } := by
  obtain ⟨hb, hnd, hfo⟩ := h
  have idlt : ∀ x ∈ db.userIds, x < db.nextUserId := by
    intro x hx
    rcases List.mem_map.1 hx with ⟨u, hu, rfl⟩
    exact hb u hu
  refine ⟨hb, hnd, ?_⟩
  intro r hr
  rcases List.mem_append.1 hr with hr | hr
  · exact hfo r hr
  · rw [List.mem_singleton] at hr
    subst hr
    exact ⟨idlt f hf, idlt g hg⟩

/-- Fact: `cacheInv` only depends on the cache, the `users` table, the `follows`
table and the user-id counter. -/
lemma cacheInv_of_parts (s s' : GenState)
    (hids : s'.user_ids = s.user_ids)
    (hus : s'.db.users = s.db.users)
    (hfo : s'.db.follows = s.db.follows)
    (hn : s'.db.nextUserId = s.db.nextUserId)
    (h : cacheInv s) : cacheInv s' := by
  obtain ⟨h1, h2, h3⟩ := h
  refine ⟨?_, ?_, ?_, ?_, ?_⟩
  · rw [hids]; exact h1
  · intro i hi
    rw [hids] at hi
    rw [hn]
    exact h2 i hi
  · intro u hu
    rw [hus] at hu
    rw [hn]
    exact h3.1 u hu
  · show (s'.db.userIds).Nodup
    unfold DB.userIds
    rw [hus]
    exact h3.2.1
  · intro r hr
    rw [hfo] at hr
    rw [hn]
    exact h3.2.2 r hr

/-- Fact: `create_user` preserves the cache invariant, and a returned id is a
fresh id: not yet cached and in range of the new counter. -/
lemma create_user_inv (s : GenState) (h : cacheInv s) :
    cacheInv (create_user s).2 ∧
    (∀ uid, (create_user s).1 = some uid →
      uid ∉ s.user_ids ∧ uid < (create_user s).2.db.nextUserId) := by
  obtain ⟨hids, henv, ht, hfol, hnt, hnf, hcase⟩ := create_user_spec s
  obtain ⟨hcnd, hcb, hwf⟩ := h
  rcases hcase with ⟨hnone, hdb⟩ | ⟨hsome, hnext, row, hrowid, hrowc, husers⟩
  · refine ⟨cacheInv_of_parts s _ hids (by rw [hdb]) (by rw [hdb]) (by rw [hdb])
      ⟨hcnd, hcb, hwf⟩, ?_⟩
    intro uid huid
    rw [hnone] at huid
    exact Option.noConfusion huid
  · obtain ⟨hb, hnd, hfo⟩ := hwf
    have hinv2 : cacheInv (create_user s).2 := by
      refine ⟨?_, ?_, ?_, ?_, ?_⟩
      · rw [hids]; exact hcnd
      · intro i hi
        rw [hids] at hi
        have := hcb i hi
        rw [hnext]
        omega
      · intro u hu
        rw [husers] at hu
        rw [hnext]
        rcases List.mem_append.1 hu with hu | hu
        · have := hb u hu
          omega
        · rw [List.mem_singleton] at hu
          subst hu
          rw [hrowid]
          omega
      · show ((create_user s).2.db.userIds).Nodup
        unfold DB.userIds
        rw [husers, List.map_append, List.map_singleton, hrowid]
        rw [List.nodup_append]
        refine ⟨hnd, List.nodup_singleton _, ?_⟩
        intro x hx hx'
        rw [List.mem_singleton] at hx'
        subst hx'
        rcases List.mem_map.1 hx with ⟨u, hu, hid⟩
        have := hb u hu
        omega
      · intro r hr
        rw [hfol] at hr
        rw [hnext]
        have := hfo r hr
        omega
    refine ⟨hinv2, ?_⟩
    intro uid huid
    rw [hsome] at huid
    injection huid with huid
    subst huid
    constructor
    · intro hmem
      have := hcb _ hmem
      omega
    · rw [hnext]
      omega

/-- Fact: `registerNewUser` preserves the cache invariant and only grows the
cache. -/
lemma registerNewUser_inv (s : GenState) (h : cacheInv s) :
    cacheInv (registerNewUser s) ∧
    s.user_ids.length ≤ (registerNewUser s).user_ids.length := by
  have hsp := (create_user_spec s).1
  obtain ⟨hinv, hfresh⟩ := create_user_inv s h
  unfold registerNewUser
  rcases hc : create_user s with ⟨uid?, s'⟩
  rw [hc] at hsp hinv hfresh
  cases uid? with
  | none => exact ⟨hinv, by rw [hsp]⟩
  | some uid =>
    obtain ⟨hnot, hlt⟩ := hfresh uid rfl
    by_cases h0 : uid = 0
    · simp only [h0, ne_eq, not_true_eq_false, if_false]
      exact ⟨hinv, by rw [hsp]⟩
    · simp only [ne_eq, h0, not_false_eq_true, if_true]
      obtain ⟨snd, sbd, swf⟩ := hinv
      have hnot' : uid ∉ s'.user_ids := by rw [hsp]; exact hnot
      refine ⟨⟨?_, ?_, swf⟩, ?_⟩
      · show (s'.user_ids ++ [uid]).Nodup
        rw [List.nodup_append]
        refine ⟨snd, List.nodup_singleton _, ?_⟩
        intro x hx hx'
        rw [List.mem_singleton] at hx'
        subst hx'
        exact hnot' hx
      · intro i hi
        rcases List.mem_append.1 hi with hi | hi
        · exact sbd i hi
        · rw [List.mem_singleton] at hi
          subst hi
          exact hlt
      · show s.user_ids.length ≤ (s'.user_ids ++ [uid]).length
        rw [List.length_append, hsp]
        omega

/-- The bootstrap loop preserves the cache invariant. -/
lemma bootstrapLoop_inv (n : Nat) :
    ∀ s : GenState, cacheInv s → cacheInv (bootstrapLoop n s) := by
  induction n with
  | zero => intro s h; exact h
  | succ n ih =>
    intro s h
    exact ih _ (registerNewUser_inv s h).1

/-- The two possible results of `get_user_ids`: the id column (limited to
100 rows), or `[]` after a swallowed error. -/
lemma get_user_ids_cases (db : DB) (env : List Bool) :
    (get_user_ids db env).1 = (db.userIds).take 100 ∨
    (get_user_ids db env).1 = [] := by
  unfold get_user_ids
  rcases h : takeEnv env with ⟨ok, rest⟩
  simp only [h]
  split_ifs <;> simp

/-- Overwriting the cache from `get_user_ids` preserves the invariant. -/
lemma loadStep_inv (s : GenState) (h : cacheInv s) : cacheInv (loadStep s) := by
  obtain ⟨-, -, hwf⟩ := h
  rcases get_user_ids_cases s.db s.env with hc | hc <;>
    (unfold loadStep
     refine ⟨?_, ?_, hwf⟩) <;> rw [hc]
  · exact hwf.2.1.sublist (List.take_sublist _ _)
  · intro i hi
    have hi' : i ∈ s.db.userIds := List.take_subset _ _ hi
    rcases List.mem_map.1 hi' with ⟨u, hu, rfl⟩
    exact hwf.1 u hu
  · exact List.nodup_nil
  · intro i hi
    exact absurd hi (List.not_mem_nil i)

/-- Fact: `load_or_create_users` preserves the cache invariant. -/
lemma load_or_create_users_inv (s : GenState) (h : cacheInv s) :
    cacheInv (load_or_create_users s) := by
  unfold load_or_create_users
  by_cases hc : (loadStep s).user_ids = []
  · rw [if_pos hc]
    exact bootstrapLoop_inv 20 _ (loadStep_inv s h)
  · rw [if_neg hc]
    exact loadStep_inv s h

/-- Fact: `maybeCreate` preserves the cache invariant and only grows the cache. -/
lemma maybeCreate_inv (threshold : Nat) (s : GenState) (h : cacheInv s) :
    cacheInv (maybeCreate threshold s) ∧
    s.user_ids.length ≤ (maybeCreate threshold s).user_ids.length := by
  have h' : cacheInv { s with rng := (drawRaw s.rng).2 } := h
  unfold maybeCreate
  split
  · exact registerNewUser_inv _ h'
  · exact ⟨h', le_refl _⟩

/-- Fact: `hydrateIfEmpty` preserves the cache invariant. -/
lemma hydrateIfEmpty_inv (s : GenState) (h : cacheInv s) :
    cacheInv (hydrateIfEmpty s) := by
  unfold hydrateIfEmpty
  split
  · exact load_or_create_users_inv s h
  · exact h

/-- Fact: `hydrateIfFewerThanTwo` preserves the cache invariant. -/
lemma hydrateIfFewerThanTwo_inv (s : GenState) (h : cacheInv s) :
    cacheInv (hydrateIfFewerThanTwo s) := by
  unfold hydrateIfFewerThanTwo
  split
  · exact load_or_create_users_inv s h
  · exact h

/-- Fact: `generate_tweet_data` preserves the cache invariant. -/
lemma generate_tweet_data_inv (s : GenState) (h : cacheInv s) :
    cacheInv (generate_tweet_data s).2 := by
  unfold generate_tweet_data
  obtain ⟨hdb, hids⟩ := tweetFields_frame (tweetPrep s)
  have hp : cacheInv (tweetPrep s) :=
    (maybeCreate_inv 100 (hydrateIfEmpty s) (hydrateIfEmpty_inv s h)).1
  exact cacheInv_of_parts _ _ hids (by rw [hdb]) (by rw [hdb]) (by rw [hdb]) hp

/-- Fact: `generate_follow_data` preserves the cache invariant. -/
lemma generate_follow_data_inv (s : GenState) (h : cacheInv s) :
    cacheInv (generate_follow_data s).2 := by
  unfold generate_follow_data
  obtain ⟨hdb, hids, -⟩ := followPairOf_frame (followPrep s)
  have hp : cacheInv (followPrep s) :=
    (maybeCreate_inv 50 (hydrateIfFewerThanTwo s)
      (hydrateIfFewerThanTwo_inv s h)).1
  exact cacheInv_of_parts _ _ hids (by rw [hdb]) (by rw [hdb]) (by rw [hdb]) hp

/-- Fact: `insert_tweet` preserves the cache invariant. -/
lemma insert_tweet_inv (s : GenState) (h : cacheInv s) :
    cacheInv (insert_tweet s) := by
  unfold insert_tweet
  have hg' := generate_tweet_data_inv s h
  rcases hg : generate_tweet_data s with ⟨res, s'⟩
  rw [hg] at hg'
  cases res with
  | error e => exact hg'
  | ok td =>
    simp only []
    have hspec := execInsertTweet_spec td.user_id td.content td.hashtags
      td.mentions td.likes_count td.retweets_count td.reply_to_tweet_id
      s'.db s'.env
    rcases hq : execInsertTweet td.user_id td.content td.hashtags td.mentions
        td.likes_count td.retweets_count td.reply_to_tweet_id s'.db s'.env
      with ⟨r, env'⟩
    rw [hq] at hspec
    cases r with
    | error e => exact cacheInv_of_parts s' { s' with env := env' } rfl rfl rfl rfl hg'
    | ok v =>
      rcases v with ⟨tid, db'⟩
      simp only [] at hspec ⊢
      obtain ⟨-, hdb'⟩ := hspec
      exact cacheInv_of_parts s' { s' with db := db', env := env' } rfl
        (by rw [hdb']) (by rw [hdb']) (by rw [hdb']) hg'

/-- Fact: `persistFollowPair` preserves the cache invariant and never touches
the cache itself. -/
lemma persistFollowPair_inv (f g : Nat) (s : GenState) (h : cacheInv s) :
    cacheInv (persistFollowPair f g s) ∧
    (persistFollowPair f g s).user_ids = s.user_ids := by
  unfold persistFollowPair
  rcases hc : check_follow_exists f g s.db s.env with ⟨ex, env1⟩
  simp only [hc]
  split
  · exact ⟨cacheInv_of_parts s _ rfl rfl rfl rfl h, rfl⟩
  · have hspec := execInsertFollow_spec f g s.db env1
    rcases hq : execInsertFollow f g s.db env1 with ⟨r, env2⟩
    rw [hq] at hspec
    cases r with
    | error e => exact ⟨cacheInv_of_parts s _ rfl rfl rfl rfl h, rfl⟩
    | ok v =>
      rcases v with ⟨fid, db1⟩
      simp only [] at hspec ⊢
      obtain ⟨-, hf, hg', hdb1⟩ := hspec
      have hwf1 : dbWF db1 := by
        rw [hdb1]
        exact dbWF_append_follow s.db f g h.2.2 hf hg'
      have hn1 : db1.nextUserId = s.db.nextUserId := by rw [hdb1]
      have hinv1 : cacheInv { s with db := db1, env := env2 } :=
        ⟨h.1, fun i hi => hn1 ▸ h.2.1 i hi, hwf1⟩
      split_ifs
      · exact ⟨hinv1, rfl⟩
      · have hu1 := execUpdFollowing_spec f db1 env2
        rcases hq2 : execUpdFollowing f db1 env2 with ⟨r2, env3⟩
        rw [hq2] at hu1
        cases r2 with
        | error e => exact ⟨hinv1, rfl⟩
        | ok db2 =>
          simp only [] at hu1 ⊢
          have hwf2 : dbWF db2 := by
            rw [hu1]
            exact dbWF_mapBump db1 (bumpFollowing f)
              (fun u => (bumpFollowing_id f u).1) hwf1
          have hn2 : db2.nextUserId = s.db.nextUserId := by rw [hu1, hn1]
          have hinv2 : cacheInv { s with db := db2, env := env3 } :=
            ⟨h.1, fun i hi => hn2 ▸ h.2.1 i hi, hwf2⟩
          have hu2 := execUpdFollowers_spec g db2 env3
          rcases hq3 : execUpdFollowers g db2 env3 with ⟨r3, env4⟩
          rw [hq3] at hu2
          cases r3 with
          | error e => exact ⟨hinv2, rfl⟩
          | ok db3 =>
            simp only [] at hu2 ⊢
            have hwf3 : dbWF db3 := by
              rw [hu2]
              exact dbWF_mapBump db2 (bumpFollowers g)
                (fun u => (bumpFollowers_id g u).1) hwf2
            have hn3 : db3.nextUserId = s.db.nextUserId := by rw [hu2, hn2]
            exact ⟨⟨h.1, fun i hi => hn3 ▸ h.2.1 i hi, hwf3⟩, trivial⟩

/-- Fact: `insert_follow` preserves the cache invariant. -/
lemma insert_follow_inv (s : GenState) (h : cacheInv s) :
    cacheInv (insert_follow s) := by
  unfold insert_follow
  have hg' := generate_follow_data_inv s h
  rcases hg : generate_follow_data s with ⟨res, s'⟩
  rw [hg] at hg'
  cases res with
  | error e => exact hg'
  | ok p => exact (persistFollowPair_inv p.1 p.2 s' hg').1

/-- A full cycle preserves the cache invariant. -/
lemma insert_random_data_inv (s : GenState) (h : cacheInv s) :
    cacheInv (insert_random_data s) := by
  unfold insert_random_data cycleStep
  have h' : cacheInv { s with rng := (drawRaw s.rng).2 } := h
  dsimp only
  split
  · exact insert_tweet_inv _ h'
  · exact insert_follow_inv _ h'


/-! ## The follow-persistence step and derived-counter accounting -/

/-- Fact: `find?` skips a prefix on which the predicate never holds. -/
lemma find?_append_of_none {α : Type} (p : α → Bool) (l₁ l₂ : List α)
    (h : l₁.find? p = none) : (l₁ ++ l₂).find? p = l₂.find? p := by
  induction l₁ with
  | nil => rfl
  | cons a t ih =>
    rw [List.find?_eq_none] at h
    have ha : ¬(p a = true) := h a (List.mem_cons_self a t)
    rw [List.cons_append, List.find?_cons_of_neg _ ha]
    exact ih (List.find?_eq_none.2 fun x hx => h x (List.mem_cons_of_mem a hx))

/-- The `any`-query of the duplicate check is `false` exactly when the
ordered pair is absent. -/
lemma any_pair_eq_false (db : DB) (f g : Nat) :
    (db.follows.any (fun r => r.follower_id = f && r.following_id = g)) = false ↔
    (f, g) ∉ db.followPairs := by
  unfold DB.followPairs
  rw [List.any_eq_false]
  constructor
  · intro h hmem
    rcases List.mem_map.1 hmem with ⟨r, hr, hpair⟩
    have := h r hr
    simp only [Bool.and_eq_true, decide_eq_true_eq] at this
    injection hpair with h1 h2
    exact this ⟨h1, h2⟩
  · intro h r hr
    simp only [Bool.and_eq_true, decide_eq_true_eq]
    rintro ⟨h1, h2⟩
    exact h (List.mem_map.2 ⟨r, hr, by rw [h1, h2]⟩)

/-- Mapping an id-preserving row transformation leaves the id column
unchanged. -/
lemma map_userId_mapBump (users : List UserRow) (φ : UserRow → UserRow)
    (hφ : ∀ u, (φ u).user_id = u.user_id) :
    (users.map φ).map (fun u => u.user_id) = users.map (fun u => u.user_id) := by
  rw [List.map_map]
  exact List.map_congr_left fun a _ => hφ a

/-- Fact: `rowsFollowersCount` after an id-preserving row transformation is the
transformed count of the found row. -/
lemma rowsFollowersCount_map (users : List UserRow) (φ : UserRow → UserRow)
    (hφ : ∀ u, (φ u).user_id = u.user_id) (x : Nat) :
    rowsFollowersCount (users.map φ) x =
      (match users.find? (fun u => u.user_id = x) with
       | some u => (φ u).followers_count
       | none => 0) := by
  unfold rowsFollowersCount
  rw [List.find?_map]
  have hpred : ((fun u : UserRow => decide (u.user_id = x)) ∘ φ) =
      fun u : UserRow => decide (u.user_id = x) := by
    funext u
    simp [hφ u]
  rw [hpred]
  cases users.find? (fun u : UserRow => decide (u.user_id = x)) <;> rfl

/-- The `following_count` update never changes any `followers_count`. -/
lemma rowsFollowersCount_bumpFollowing (users : List UserRow) (f x : Nat) :
    rowsFollowersCount (users.map (bumpFollowing f)) x =
      rowsFollowersCount users x := by
  rw [rowsFollowersCount_map users (bumpFollowing f)
    (fun u => (bumpFollowing_id f u).1) x]
  unfold rowsFollowersCount
  cases h : users.find? (fun u => u.user_id = x) with
  | none => rfl
  | some u =>
    simp only []
    exact (bumpFollowing_id f u).2

/-- The `followers_count` update leaves every other user's count alone. -/
lemma rowsFollowersCount_bumpFollowers_ne (users : List UserRow) (g x : Nat)
    (hx : x ≠ g) :
    rowsFollowersCount (users.map (bumpFollowers g)) x =
      rowsFollowersCount users x := by
  rw [rowsFollowersCount_map users (bumpFollowers g)
    (fun u => (bumpFollowers_id g u).1) x]
  unfold rowsFollowersCount
  cases h : users.find? (fun u => u.user_id = x) with
  | none => rfl
  | some u =>
    simp only []
    have hu : u.user_id = x := by
      have := List.find?_some h
      simpa using this
    rw [(bumpFollowers_id g u).2, if_neg (by rw [hu]; exact hx)]

/-- The `followers_count` update adds exactly one to the target's count
when the target row exists. -/
lemma rowsFollowersCount_bumpFollowers_self (users : List UserRow) (g : Nat)
    (hg : g ∈ users.map (fun u => u.user_id)) :
    rowsFollowersCount (users.map (bumpFollowers g)) g =
      rowsFollowersCount users g + 1 := by
  rw [rowsFollowersCount_map users (bumpFollowers g)
    (fun u => (bumpFollowers_id g u).1) g]
  unfold rowsFollowersCount
  have hex : (users.find? (fun u : UserRow => decide (u.user_id = g))).isSome := by
    rw [List.find?_isSome]
    rcases List.mem_map.1 hg with ⟨u, hu, rfl⟩
    exact ⟨u, hu, by simp⟩
  rcases Option.isSome_iff_exists.1 hex with ⟨u, hu⟩
  rw [hu]
  simp only []
  have hid : u.user_id = g := by
    have := List.find?_some hu
    simpa using this
  rw [(bumpFollowers_id g u).2, if_pos hid]

/-- The success path of the follow-persist step: with no injected storage
failures, a fresh non-self pair between existing users is inserted, the
pair list grows by exactly that pair, and exactly the target's
`followers_count` is incremented. -/
lemma persistFollowPair_step (f g : Nat) (s : GenState)
    (henv : s.env = [])
    (hne : f ≠ g) (hf : f ∈ s.db.userIds) (hg : g ∈ s.db.userIds)
    (hnot : (f, g) ∉ s.db.followPairs)
    (hfid : 1 ≤ s.db.nextFollowId) :
    (persistFollowPair f g s).env = [] ∧
    (persistFollowPair f g s).user_ids = s.user_ids ∧
    (persistFollowPair f g s).db.userIds = s.db.userIds ∧
    (persistFollowPair f g s).db.followPairs = s.db.followPairs ++ [(f, g)] ∧
    (persistFollowPair f g s).db.follows = s.db.follows ++
      [{ follow_id := s.db.nextFollowId, follower_id := f,
         following_id := g }] ∧
    (persistFollowPair f g s).db.nextFollowId = s.db.nextFollowId + 1 ∧
    (persistFollowPair f g s).db.nextUserId = s.db.nextUserId ∧
    (∀ x, followersCountOf (persistFollowPair f g s).db x =
      (if x = g then followersCountOf s.db x + 1 else followersCountOf s.db x)) := by
  have htake : takeEnv s.env = (true, []) := by rw [henv]; exact takeEnv_nil
  have hany : (s.db.follows.any
      (fun r => r.follower_id = f && r.following_id = g)) = false :=
    (any_pair_eq_false s.db f g).2 hnot
  have hcheck := check_follow_exists_ok f g s.db s.env [] htake
  rw [hany] at hcheck
  unfold persistFollowPair
  rw [hcheck]
  dsimp only
  rw [if_neg (by simp)]
  rw [execInsertFollow_ok f g s.db [] [] takeEnv_nil hany hne hf hg]
  dsimp only
  rw [if_neg (by omega)]
  rw [execUpdFollowing_ok f _ [] [] takeEnv_nil]
  dsimp only
  rw [execUpdFollowers_ok g _ [] [] takeEnv_nil]
  dsimp only
  refine ⟨rfl, rfl, ?_, ?_, rfl, rfl, rfl, ?_⟩
  · show ((s.db.users.map (bumpFollowing f)).map (bumpFollowers g)).map
        (fun u => u.user_id) = s.db.userIds
    rw [map_userId_mapBump _ _ (fun u => (bumpFollowers_id g u).1),
      map_userId_mapBump _ _ (fun u => (bumpFollowing_id f u).1)]
    rfl
  · show (s.db.follows ++
        ([{ follow_id := s.db.nextFollowId, follower_id := f,
            following_id := g }] : List FollowRow)).map
        (fun r : FollowRow => (r.follower_id, r.following_id)) =
      s.db.followPairs ++ [(f, g)]
    rw [List.map_append]
    rfl
  · intro x
    show rowsFollowersCount
        ((s.db.users.map (bumpFollowing f)).map (bumpFollowers g)) x =
      (if x = g then rowsFollowersCount s.db.users x + 1
       else rowsFollowersCount s.db.users x)
    by_cases hx : x = g
    · subst hx
      rw [if_pos rfl]
      rw [rowsFollowersCount_bumpFollowers_self _ x
        (by rw [map_userId_mapBump _ _ (fun u => (bumpFollowing_id f u).1)]
            exact hg)]
      rw [rowsFollowersCount_bumpFollowing]
    · rw [if_neg hx]
      rw [rowsFollowersCount_bumpFollowers_ne _ _ _ hx,
        rowsFollowersCount_bumpFollowing]

/-- Auxiliary: over a list of follow requests all targeting `U`, each
fresh and each between existing users, the requests all succeed: the pair
list grows by exactly the requested pairs and `followers_count(U)` rises
by their number. -/
lemma applyFollows_count (ps : List (Nat × Nat)) :
    ∀ s : GenState,
    s.env = [] →
    1 ≤ s.db.nextFollowId →
    ∀ U : Nat, U ∈ s.db.userIds →
    (∀ p ∈ ps, p.2 = U ∧ p.1 ∈ s.db.userIds ∧ p.1 ≠ U) →
    (∀ p ∈ ps, (p.1, p.2) ∉ s.db.followPairs) →
    (ps.map Prod.fst).Nodup →
    followersCountOf (applyFollows ps s).db U =
      followersCountOf s.db U + ps.length ∧
    (applyFollows ps s).db.followPairs = s.db.followPairs ++ ps := by
  induction ps with
  | nil =>
    intro s henv hfid U hU hps hfresh hnd
    exact ⟨rfl, by simp [applyFollows]⟩
  | cons p rest ih =>
    intro s henv hfid U hU hps hfresh hnd
    obtain ⟨hp2, hp1, hpne⟩ := hps p (List.mem_cons_self p rest)
    have hstep := persistFollowPair_step p.1 p.2 s henv
      (by rw [hp2]; exact hpne) hp1 (by rw [hp2]; exact hU)
      (hfresh p (List.mem_cons_self p rest)) hfid
    obtain ⟨e1, e2, e3, e4, eF, e5, e6, e7⟩ := hstep
    have happ : applyFollows (p :: rest) s =
        applyFollows rest (persistFollowPair p.1 p.2 s) := rfl
    rw [happ]
    have hrest := ih (persistFollowPair p.1 p.2 s)
      e1 (by rw [e5]; omega) U (by rw [e3]; exact hU)
      (by
        intro q hq
        obtain ⟨q2, q1, qne⟩ := hps q (List.mem_cons_of_mem p hq)
        exact ⟨q2, by rw [e3]; exact q1, qne⟩)
      (by
        intro q hq
        rw [e4]
        intro hmem
        rcases List.mem_append.1 hmem with hmem | hmem
        · exact hfresh q (List.mem_cons_of_mem p hq) hmem
        · rw [List.mem_singleton] at hmem
          have hq1 : q.1 = p.1 := by
            have := congrArg Prod.fst hmem
            simpa using this
          have : p.1 ∈ rest.map Prod.fst := hq1 ▸ List.mem_map_of_mem Prod.fst hq
          exact (List.nodup_cons.1 hnd).1 this)
      ((List.nodup_cons.1 hnd).2)
    obtain ⟨hcount, hpairs⟩ := hrest
    constructor
    · rw [hcount, e7 U, if_pos (by rw [hp2]), List.length_cons]
      omega
    · rw [hpairs, e4, List.append_assoc]
      have : (p.1, p.2) = p := rfl
      rw [this]
      rfl


/-! ## Bootstrap characterisation -/

lemma takeFake_fst (l : List String) : (takeFake l).1 = l.getD 0 "" := by
  cases l <;> rfl

lemma takeFake_snd (l : List String) : (takeFake l).2 = l.drop 1 := by
  cases l <;> rfl

/-- The second Faker draw (the email position). -/
lemma takeFake_email (l : List String) :
    (takeFake (takeFake l).2).1 = l.getD 1 "" := by
  cases l with
  | nil => rfl
  | cons a r => exact takeFake_fst r

/-- Four Faker draws consume four stream entries. -/
lemma takeFake_drop4 (l : List String) :
    (takeFake (takeFake (takeFake (takeFake l).2).2).2).2 = l.drop 4 := by
  rw [takeFake_snd, takeFake_snd, takeFake_snd, takeFake_snd]
  simp [List.drop_drop]

/-- Number of rounds planned equals the profile count. -/
lemma plannedProfiles_length (n : Nat) :
    ∀ fake : List String, (plannedProfiles n fake).length = n := by
  induction n with
  | zero => intro fake; rfl
  | succ n ih =>
    intro fake
    unfold plannedProfiles
    rw [List.length_cons, ih]

/-- The profile-freshness check of `execInsertUser` is `false` exactly when
no existing row collides on username or email. -/
lemma any_profile_eq_false (users : List UserRow) (un em : String) :
    (users.any (fun u => u.username = un || u.email = em)) = false ↔
    (∀ u ∈ users, u.username ≠ un ∧ u.email ≠ em) := by
  rw [List.any_eq_false]
  constructor
  · intro h u hu
    have := h u hu
    simp only [Bool.or_eq_true, decide_eq_true_eq] at this
    push_neg at this
    exact this
  · intro h u hu
    have := h u hu
    simp only [Bool.or_eq_true, decide_eq_true_eq]
    push_neg
    exact this

/-- The success equation of `create_user` under no injected failures and a
fresh profile. -/
lemma create_user_ok_eq (s : GenState) (henv : s.env = [])
    (hfresh : (s.db.users.any (fun u =>
      u.username = (takeFake s.fake).1 ||
      u.email = (takeFake (takeFake s.fake).2).1)) = false) :
    create_user s = (some s.db.nextUserId,
      { s with
        fake := (takeFake (takeFake (takeFake (takeFake s.fake).2).2).2).2,
        rng := (drawRaw (drawRaw s.rng).2).2,
        env := [],
        db := { s.db with
                users := s.db.users ++
                  [newUserRow (takeFake s.fake).1 (takeFake (takeFake s.fake).2).1
                    (takeFake (takeFake (takeFake s.fake).2).2).1
                    (takeFake (takeFake (takeFake (takeFake s.fake).2).2).2).1
                    ((drawRaw s.rng).1 % 1001) ((drawRaw (drawRaw s.rng).2).1 % 501)
                    s.db.nextUserId],
                nextUserId := s.db.nextUserId + 1 } }) := by
  unfold create_user
  rw [execInsertUser_ok _ _ _ _ _ _ s.db s.env []
    (by rw [henv]; exact takeEnv_nil) hfresh]

/-- Fact: `registerNewUser` has the same effect as `create_user` on everything
except the cache. -/
lemma registerNewUser_eqs (s : GenState) :
    (registerNewUser s).db = (create_user s).2.db ∧
    (registerNewUser s).env = (create_user s).2.env ∧
    (registerNewUser s).fake = (create_user s).2.fake ∧
    (registerNewUser s).rng = (create_user s).2.rng := by
  unfold registerNewUser
  rcases hc : create_user s with ⟨uid?, s'⟩
  cases uid? with
  | none => exact ⟨rfl, rfl, rfl, rfl⟩
  | some uid =>
    simp only []
    split_ifs <;> simp

/-- The bootstrap loop under no injected failures and pairwise-fresh
planned profiles: it appends one row per round, with exactly the planned
usernames and emails. -/
lemma bootstrapLoop_adds (n : Nat) :
    ∀ s : GenState, s.env = [] →
    (∀ p ∈ plannedProfiles n s.fake,
      ∀ u ∈ s.db.users, u.username ≠ p.1 ∧ u.email ≠ p.2) →
    ((plannedProfiles n s.fake).map Prod.fst).Nodup →
    ((plannedProfiles n s.fake).map Prod.snd).Nodup →
    (bootstrapLoop n s).db.users.map (fun u => u.username) =
      s.db.users.map (fun u => u.username) ++
        (plannedProfiles n s.fake).map Prod.fst ∧
    (bootstrapLoop n s).db.users.map (fun u => u.email) =
      s.db.users.map (fun u => u.email) ++
        (plannedProfiles n s.fake).map Prod.snd := by
  induction n with
  | zero =>
    intro s henv hfresh hndu hnde
    simp [bootstrapLoop, plannedProfiles]
  | succ n ih =>
    intro s henv hfresh hndu hnde
    have hhead : (s.fake.getD 0 "", s.fake.getD 1 "") ∈
        plannedProfiles (n + 1) s.fake := by
      unfold plannedProfiles
      exact List.mem_cons_self _ _
    have hfr : (s.db.users.any (fun u =>
        u.username = (takeFake s.fake).1 ||
        u.email = (takeFake (takeFake s.fake).2).1)) = false := by
      rw [any_profile_eq_false]
      intro u hu
      have := hfresh _ hhead u hu
      rw [takeFake_fst, takeFake_email]
      exact this
    have hcu := create_user_ok_eq s henv hfr
    have hreq := registerNewUser_eqs s
    rw [hcu] at hreq
    obtain ⟨hdb, henv', hfake, -⟩ := hreq
    unfold bootstrapLoop
    have hfake4 : (registerNewUser s).fake = s.fake.drop 4 := by
      rw [hfake]
      exact takeFake_drop4 s.fake
    -- the planned profiles of the remaining rounds
    have hplan : plannedProfiles (n + 1) s.fake =
        (s.fake.getD 0 "", s.fake.getD 1 "") ::
          plannedProfiles n (s.fake.drop 4) := rfl
    have hrowu : (newUserRow (takeFake s.fake).1 (takeFake (takeFake s.fake).2).1
        (takeFake (takeFake (takeFake s.fake).2).2).1
        (takeFake (takeFake (takeFake (takeFake s.fake).2).2).2).1
        ((drawRaw s.rng).1 % 1001) ((drawRaw (drawRaw s.rng).2).1 % 501)
        s.db.nextUserId).username = s.fake.getD 0 "" := takeFake_fst s.fake
    have hrowe : (newUserRow (takeFake s.fake).1 (takeFake (takeFake s.fake).2).1
        (takeFake (takeFake (takeFake s.fake).2).2).1
        (takeFake (takeFake (takeFake (takeFake s.fake).2).2).2).1
        ((drawRaw s.rng).1 % 1001) ((drawRaw (drawRaw s.rng).2).1 % 501)
        s.db.nextUserId).email = s.fake.getD 1 "" := takeFake_email s.fake
    rw [hplan] at hfresh hndu hnde
    simp only [List.map_cons, List.nodup_cons] at hndu hnde
    have hih := ih (registerNewUser s)
      (by rw [henv'])
      (by
        rw [hfake4]
        intro p hp u hu
        rw [hdb] at hu
        dsimp only at hu
        rcases List.mem_append.1 hu with hu | hu
        · exact hfresh p (List.mem_cons_of_mem _ hp) u hu
        · rw [List.mem_singleton] at hu
          subst hu
          constructor
          · rw [hrowu]
            intro hcontra
            exact hndu.1 (hcontra ▸ List.mem_map_of_mem Prod.fst hp)
          · rw [hrowe]
            intro hcontra
            exact hnde.1 (hcontra ▸ List.mem_map_of_mem Prod.snd hp))
      (by rw [hfake4]; exact hndu.2)
      (by rw [hfake4]; exact hnde.2)
    obtain ⟨hu, he⟩ := hih
    rw [hfake4] at hu he
    constructor
    · rw [hu, hdb]
      dsimp only
      rw [List.map_append, hplan]
      simp [hrowu, List.append_assoc, List.singleton_append, List.map_cons]
    · rw [he, hdb]
      dsimp only
      rw [List.map_append, hplan]
      simp [hrowe, List.append_assoc, List.singleton_append, List.map_cons]

/-- Every scheduled cycle completes and produces exactly one branch
decision, whatever the storage does. -/
lemma run_length (n : Nat) : ∀ s : GenState, ((run n s).1).length = n := by
  induction n with
  | zero => intro s; rfl
  | succ n ih =>
    intro s
    show ((cycleStep s).1 :: (run n (cycleStep s).2).1).length = n + 1
    rw [List.length_cons, ih]


/-- The `any`-query of the duplicate check is `true` exactly when the
ordered pair is present. -/
lemma any_pair_eq_true (db : DB) (f g : Nat) :
    (db.follows.any (fun r => r.follower_id = f && r.following_id = g)) = true ↔
    (f, g) ∈ db.followPairs := by
  constructor
  · intro h
    by_contra hmem
    rw [(any_pair_eq_false db f g).2 hmem] at h
    exact Bool.noConfusion h
  · intro hmem
    by_contra h
    rw [Bool.not_eq_true] at h
    exact (any_pair_eq_false db f g).1 h hmem

/-- A request for a pair already present is a complete no-op (under no
injected storage failures): the duplicate check detects it and nothing is
written. -/
lemma persistFollowPair_existing (f g : Nat) (s : GenState)
    (henv : s.env = [])
    (hmem : (f, g) ∈ s.db.followPairs) :
    persistFollowPair f g s = s := by
  have hany : (s.db.follows.any
      (fun r => r.follower_id = f && r.following_id = g)) = true :=
    (any_pair_eq_true s.db f g).2 hmem
  have hcheck := check_follow_exists_ok f g s.db s.env []
    (by rw [henv]; exact takeEnv_nil)
  rw [hany] at hcheck
  unfold persistFollowPair
  rw [hcheck]
  dsimp only
  rw [if_pos rfl, ← henv]

/-- A pair absent from the store has no rows. -/
lemma countPair_zero (db : DB) (f g : Nat) (h : (f, g) ∉ db.followPairs) :
    countPair db f g = 0 := by
  unfold countPair
  rw [List.length_eq_zero, List.filter_eq_nil]
  intro r hr
  simp only [Bool.and_eq_true, decide_eq_true_eq]
  rintro ⟨h1, h2⟩
  exact h (List.mem_map.2 ⟨r, hr, by rw [h1, h2]⟩)

end DataGenerator


/-! ## Scheduler invariants -/

namespace Scheduler

/-- One transition preserves the single-flight invariant. -/
lemma schedStep_inv (st : SlotState × Nat) (ev : SchedEvent)
    (h : st = (SlotState.idle, 0) ∨ st = (SlotState.running, 1)) :
    schedStep st ev = (SlotState.idle, 0) ∨
    schedStep st ev = (SlotState.running, 1) := by
  rcases h with rfl | rfl <;> cases ev <;> simp [schedStep]

/-- Every reachable state of the slot machine is idle-with-no-cycle or
running-with-exactly-one-cycle. -/
lemma schedExec_inv (evs : List SchedEvent) :
    schedExec evs = (SlotState.idle, 0) ∨
    schedExec evs = (SlotState.running, 1) := by
  unfold schedExec
  have hgen : ∀ (l : List SchedEvent) (st : SlotState × Nat),
      (st = (SlotState.idle, 0) ∨ st = (SlotState.running, 1)) →
      (l.foldl schedStep st = (SlotState.idle, 0) ∨
       l.foldl schedStep st = (SlotState.running, 1)) := by
    intro l
    induction l with
    | nil => intro st h; simpa using h
    | cons e r ih => intro st h; exact ih _ (schedStep_inv st e h)
  exact hgen evs _ (Or.inl rfl)

end Scheduler

/-! ## Concrete states for witnesses and counterexamples -/

/-- A store holding one user (id 1). -/
def dbOne : DB :=
  { users := [{ user_id := 1, username := "a", email := "ea", full_name := "n",
                bio := "b", followers_count := 3, following_count := 4 }],
    tweets := [], follows := [],
    nextUserId := 2, nextTweetId := 1, nextFollowId := 1 }

/-- A store holding two users (ids 1 and 2). -/
def dbTwo : DB :=
  { users := [{ user_id := 1, username := "a", email := "ea", full_name := "n",
                bio := "b", followers_count := 3, following_count := 4 },
              { user_id := 2, username := "c", email := "ec", full_name := "m",
                bio := "d", followers_count := 0, following_count := 0 }],
    tweets := [], follows := [],
    nextUserId := 3, nextTweetId := 1, nextFollowId := 1 }

/-- Start state for the follow-counter scenarios: one existing user, a
`random` stream seeding the next user's `followers_count` with 5. -/
def sC1 : GenState :=
  { user_ids := [1], rng := [5, 7], fake := ["b", "eb", "nm", "bio"],
    env := [], db := dbOne }

/-- Start state whose single cycle takes the tweet branch and whose 10%
opportunistic-user draw fires. -/
def sC2 : GenState :=
  { user_ids := [1],
    rng := [0, 0, 5, 7, 0, 900, 900, 10, 20, 900],
    fake := ["b", "eb", "nm", "bio", "content"],
    env := [], db := dbOne }

/-- Start state for the duplicate-follow scenario. -/
def sC3 : GenState :=
  { user_ids := [1, 2], rng := [], fake := [], env := [], db := dbTwo }

/-- Start state whose first storage call is made to fail. -/
def sC4 : GenState :=
  { user_ids := [1, 2], rng := [], fake := [], env := [false], db := dbTwo }

/-- Start state for the follow-pair-generation scenario. -/
def sC5 : GenState :=
  { user_ids := [1, 2], rng := [900, 0, 1], fake := [], env := [], db := dbTwo }

/-- 20 pairwise-distinct Faker profiles (4 strings per user). -/
def fake20 : List String :=
  (List.range 20).flatMap
    (fun i => ["u" ++ Nat.repr i, "e" ++ Nat.repr i, "nm", "bio"])

/-- Bootstrap scenario: empty store, empty cache, fresh Faker strings. -/
def sBoot : GenState :=
  { user_ids := [], rng := [], fake := fake20, env := [],
    db := { users := [], tweets := [], follows := [],
            nextUserId := 1, nextTweetId := 1, nextFollowId := 1 } }

/-- Failing-load scenario: the store already holds a user but the id-load
query errors. -/
def sBoot2 : GenState :=
  { user_ids := [], rng := [], fake := fake20, env := [false], db := dbOne }

/-- The shared `random` stream of the two-run scenario. -/
def rngSeed : List Nat := [0, 0, 5, 7, 0, 900, 100, 300, 300, 300, 900, 900, 0]

/-- First run: the Faker stream yields a fresh username. -/
def sA : GenState :=
  { user_ids := [1], rng := rngSeed,
    fake := ["b", "eb", "nm", "bio", "content"], env := [], db := dbOne }

/-- Second run: same seed, same store, but the Faker stream repeats an
existing username, so the opportunistic user insert hits the UNIQUE
constraint. -/
def sB : GenState :=
  { user_ids := [1], rng := rngSeed,
    fake := ["a", "ea", "nm", "bio", "content"], env := [], db := dbOne }

/-! ## Claims -/

/-- C1 (counterexample): a user created by `create_user` with seeded
`followers_count = 5` receives exactly one successful, non-duplicate
Follow insertion targeting it (the store ends with exactly the one pair
`(1, 2)`), yet its stored `followers_count` is `6`, not `N = 1`. -/
theorem C1_counterexample :
    (DataGenerator.create_user sC1).1 = some 2 ∧
    (applyFollows [(1, 2)] (DataGenerator.create_user sC1).2).db.followPairs
      = [(1, 2)] ∧
    followersCountOf
      (applyFollows [(1, 2)] (DataGenerator.create_user sC1).2).db 2 = 6 ∧
    (6 : Nat) ≠ 1 := by decide

/-- C1 (amended): after a user `U` is created by `create_user` (which seeds
`followers_count` with the `randint(0, 1000)` draw) and then receives
exactly `N` successful, non-duplicate Follow insertions targeting `U`,
with no injected storage failures and no other mutation, the stored
`followers_count` of `U` equals the seeded initial value plus `N`. -/
theorem C1_followers_seed_plus_n (s : GenState) (U : Nat) (s₁ : GenState)
    (ps : List (Nat × Nat))
    (henv : s.env = [])
    (hwf : dbWF s.db)
    (hfid : 1 ≤ s.db.nextFollowId)
    (hc : DataGenerator.create_user s = (some U, s₁))
    (hps : ∀ p ∈ ps, p.2 = U ∧ p.1 ∈ s.db.userIds)
    (hnd : (ps.map Prod.fst).Nodup) :
    followersCountOf (applyFollows ps s₁).db U =
      (drawRaw s.rng).1 % 1001 + ps.length := by
  have hspec := DataGenerator.create_user_spec s
  rw [hc] at hspec
  obtain ⟨hids, henv₁, ht, hfol, hnt, hnf, hcase⟩ := hspec
  rcases hcase with ⟨hnone, -⟩ | ⟨hsome, hnext, row, hrowid, hrowc, husers⟩
  · exact absurd hnone (by simp)
  · have hU : U = s.db.nextUserId := by
      simpa using hsome
    subst hU
    have henv₁' : s₁.env = [] := by rw [henv₁, henv]; rfl
    have hfid₁ : 1 ≤ s₁.db.nextFollowId := by
      show 1 ≤ (some s.db.nextUserId, s₁).2.db.nextFollowId
      rw [hnf]
      exact hfid
    have husers' : s₁.db.users = s.db.users ++ [row] := husers
    have hUmem : s.db.nextUserId ∈ s₁.db.userIds := by
      unfold DB.userIds
      rw [husers', List.map_append]
      exact List.mem_append_right _ (by simp [hrowid])
    have hidsSub : ∀ x, x ∈ s.db.userIds → x ∈ s₁.db.userIds := by
      intro x hx
      unfold DB.userIds at hx ⊢
      rw [husers', List.map_append]
      exact List.mem_append_left _ hx
    have hlt : ∀ x, x ∈ s.db.userIds → x < s.db.nextUserId := by
      intro x hx
      rcases List.mem_map.1 hx with ⟨u, hu, rfl⟩
      exact hwf.1 u hu
    have hfresh₁ : ∀ p ∈ ps, (p.1, p.2) ∉ s₁.db.followPairs := by
      intro p hp hmem
      unfold DB.followPairs at hmem
      have hfol' : s₁.db.follows = s.db.follows := hfol
      rw [hfol'] at hmem
      rcases List.mem_map.1 hmem with ⟨r, hr, hpair⟩
      have hbound := (hwf.2.2 r hr).2
      have hp2 : p.2 = s.db.nextUserId := (hps p hp).1
      have : r.following_id = s.db.nextUserId := by
        have := congrArg Prod.snd hpair
        simpa [hp2] using this
      omega
    have happly := DataGenerator.applyFollows_count ps s₁ henv₁' hfid₁ s.db.nextUserId hUmem
      (by
        intro p hp
        obtain ⟨hp2, hp1⟩ := hps p hp
        exact ⟨hp2, hidsSub _ hp1, by have := hlt _ hp1; omega⟩)
      hfresh₁ hnd
    rw [happly.1]
    have hcount₁ : followersCountOf s₁.db s.db.nextUserId =
        (drawRaw s.rng).1 % 1001 := by
      unfold followersCountOf rowsFollowersCount
      rw [husers']
      have hnone : (s.db.users.find?
          (fun u => u.user_id = s.db.nextUserId)) = none := by
        rw [List.find?_eq_none]
        intro u hu
        simp only [decide_eq_true_eq]
        have := hwf.1 u hu
        omega
      rw [DataGenerator.find?_append_of_none _ _ _ hnone]
      rw [List.find?_cons_of_pos _ (by simp [hrowid])]
      exact hrowc
    rw [hcount₁]

/-- C1 (witness): the amended statement at the concrete scenario. -/
theorem C1_witness :
    (sC1.env = [] ∧ dbWF sC1.db ∧ 1 ≤ sC1.db.nextFollowId ∧
     DataGenerator.create_user sC1 = (some 2, (DataGenerator.create_user sC1).2) ∧
     (∀ p ∈ [((1 : Nat), (2 : Nat))], p.2 = 2 ∧ p.1 ∈ sC1.db.userIds) ∧
     (([((1 : Nat), (2 : Nat))].map Prod.fst).Nodup)) ∧
    followersCountOf
      (applyFollows [(1, 2)] (DataGenerator.create_user sC1).2).db 2 =
      (drawRaw sC1.rng).1 % 1001 + ([((1 : Nat), (2 : Nat))]).length :=
  ⟨by decide,
   C1_followers_seed_plus_n sC1 2 (DataGenerator.create_user sC1).2 [(1, 2)]
     (by decide) (by decide) (by decide) (by decide) (by decide) (by decide)⟩

/-- C2 (counterexample): one invocation of `insert_random_data` performs a
create-user *and* an insert-tweet — the cycle adds one `users` row and one
`tweets` row — so a cycle can perform more than one of the three
operations. -/
theorem C2_counterexample :
    (DataGenerator.insert_random_data sC2).db.users.length =
      sC2.db.users.length + 1 ∧
    (DataGenerator.insert_random_data sC2).db.tweets.length =
      sC2.db.tweets.length + 1 := by decide

/-- C2 (amended): each cycle performs exactly one *top-level* persist
operation, insert-tweet or insert-follow, per the 70/30 draw — a cycle
never writes to both the `tweets` and the `follows` table; however user
creation may additionally happen inside the chosen branch's generation
step. -/
theorem C2_at_most_one_table (s : GenState) :
    (DataGenerator.insert_random_data s).db.tweets = s.db.tweets ∨
    (DataGenerator.insert_random_data s).db.follows = s.db.follows := by
  unfold DataGenerator.insert_random_data DataGenerator.cycleStep
  dsimp only
  split
  · exact Or.inr (DataGenerator.insert_tweet_follows _)
  · exact Or.inl (DataGenerator.insert_follow_tweets _)

/-- C3 (confirmed): performing the follow-persist step twice for the same
ordered pair leaves exactly one Follow row for that pair; the second
attempt detects the existing pair and changes nothing at all (its result
state is identical), and no error escapes. -/
theorem C3_duplicate_follow_noop (s : GenState) (f g : Nat)
    (henv : s.env = []) (hne : f ≠ g)
    (hf : f ∈ s.db.userIds) (hg : g ∈ s.db.userIds)
    (hnot : (f, g) ∉ s.db.followPairs)
    (hfid : 1 ≤ s.db.nextFollowId) :
    DataGenerator.persistFollowPair f g (DataGenerator.persistFollowPair f g s)
      = DataGenerator.persistFollowPair f g s ∧
    countPair (DataGenerator.persistFollowPair f g
      (DataGenerator.persistFollowPair f g s)).db f g = 1 := by
  obtain ⟨e1, e2, e3, e4, eF, e5, e6, e7⟩ :=
    DataGenerator.persistFollowPair_step f g s henv hne hf hg hnot hfid
  have hmem : (f, g) ∈ (DataGenerator.persistFollowPair f g s).db.followPairs := by
    rw [e4]
    exact List.mem_append_right _ (List.mem_singleton_self _)
  have hsecond := DataGenerator.persistFollowPair_existing f g
    (DataGenerator.persistFollowPair f g s) e1 hmem
  refine ⟨hsecond, ?_⟩
  rw [hsecond]
  unfold countPair
  rw [eF, List.filter_append]
  have hold : (DataPipeline.GenState.db s).follows.filter
      (fun r => r.follower_id = f && r.following_id = g) = [] := by
    rw [List.filter_eq_nil]
    intro r hr
    simp only [Bool.and_eq_true, decide_eq_true_eq]
    rintro ⟨h1, h2⟩
    exact hnot (List.mem_map.2 ⟨r, hr, by rw [h1, h2]⟩)
  rw [hold]
  simp

/-- C3 (witness): the duplicate-follow idempotence at a concrete store. -/
theorem C3_witness :
    (sC3.env = [] ∧ (1 : Nat) ≠ 2 ∧ 1 ∈ sC3.db.userIds ∧ 2 ∈ sC3.db.userIds ∧
     ((1 : Nat), (2 : Nat)) ∉ sC3.db.followPairs ∧ 1 ≤ sC3.db.nextFollowId) ∧
    (DataGenerator.persistFollowPair 1 2 (DataGenerator.persistFollowPair 1 2 sC3)
      = DataGenerator.persistFollowPair 1 2 sC3 ∧
     countPair (DataGenerator.persistFollowPair 1 2
       (DataGenerator.persistFollowPair 1 2 sC3)).db 1 2 = 1) :=
  ⟨by decide,
   C3_duplicate_follow_noop sC3 1 2 (by decide) (by decide) (by decide)
     (by decide) (by decide) (by decide)⟩

/-- C4 (confirmed): if the duplicate-existence check's storage call fails,
the pair is treated as already existing: the follow-persist step performs
no insert and no counter update — the state is unchanged except for the
consumed storage call. -/
theorem C4_check_failure_skips (s : GenState) (f g : Nat) (rest : List Bool)
    (h : s.env = false :: rest) :
    DataGenerator.persistFollowPair f g s = { s with env := rest } := by
  have hcheck := DatabaseManager.check_follow_exists_fail f g s.db s.env rest
    (by rw [h]; rfl)
  unfold DataGenerator.persistFollowPair
  rw [hcheck]
  dsimp only
  rw [if_pos rfl]

/-- C4 (witness): the degraded-conservative path at a concrete store. -/
theorem C4_witness :
    sC4.env = false :: [] ∧
    DataGenerator.persistFollowPair 1 2 sC4 = { sC4 with env := [] } :=
  ⟨rfl, C4_check_failure_skips sC4 1 2 [] rfl⟩

/-- C5 (confirmed): with at least two (pairwise-distinct, per the cache
invariant) user ids known, `generate_follow_data` succeeds and returns a
pair of two different ids, both drawn from the known-user list. -/
theorem C5_follow_pair_distinct (s : GenState) (hinv : cacheInv s)
    (h2 : 2 ≤ s.user_ids.length) :
    ∃ f g s', DataGenerator.generate_follow_data s = (.ok (f, g), s') ∧
      f ≠ g ∧ f ∈ s'.user_ids ∧ g ∈ s'.user_ids := by
  unfold DataGenerator.generate_follow_data DataGenerator.followPrep
    DataGenerator.hydrateIfFewerThanTwo
  rw [if_neg (by omega)]
  obtain ⟨hmi, hml⟩ := DataGenerator.maybeCreate_inv 50 s hinv
  have hlen2 : 2 ≤ (DataGenerator.maybeCreate 50 s).user_ids.length :=
    le_trans h2 hml
  unfold DataGenerator.followPairOf
  rw [if_neg (by omega)]
  obtain ⟨hne, hm1, hm2⟩ := DataGenerator.sampleTwo_spec
    (DataGenerator.maybeCreate 50 s).user_ids
    (drawRaw (DataGenerator.maybeCreate 50 s).rng).1
    (drawRaw (drawRaw (DataGenerator.maybeCreate 50 s).rng).2).1 hlen2 hmi.1
  exact ⟨_, _, _, rfl, hne, hm1, hm2⟩

/-- C5 (witness): a concrete state with two known users. -/
theorem C5_witness :
    (cacheInv sC5 ∧ 2 ≤ sC5.user_ids.length) ∧
    (∃ f g s', DataGenerator.generate_follow_data sC5 = (.ok (f, g), s') ∧
      f ≠ g ∧ f ∈ s'.user_ids ∧ g ∈ s'.user_ids) :=
  ⟨⟨by decide, by decide⟩, C5_follow_pair_distinct sC5 (by decide) (by decide)⟩

/-- C6 (confirmed): whatever the storage layer does — including a failure
injected at every single call — every scheduled cycle returns normally:
`n` consecutive invocations of `insert_random_data` always complete and
produce exactly `n` branch decisions; no exception escapes a cycle. -/
theorem C6_cycles_complete (n : Nat) (s : GenState) :
    ((DataGenerator.run n s).1).length = n :=
  DataGenerator.run_length n s

/-- C7 (counterexample): the bootstrap batch is *not* created only in the
storage-empty case: when the id-load query fails on a store that already
holds a user, the code still creates the 20-user bootstrap batch. -/
theorem C7_counterexample :
    sBoot2.db.users ≠ [] ∧
    (DataGenerator.load_or_create_users sBoot2).db.users.length =
      sBoot2.db.users.length + 20 := by decide

/-- C7 (amended): with an empty cache and no injected storage failures:
if storage is empty (and the planned Faker profiles are pairwise fresh),
`load_or_create_users` creates exactly 20 user rows with pairwise-distinct
usernames and pairwise-distinct emails; and if storage already holds users
*and the id-load succeeds*, no bootstrap row is created.  (As the
counterexample shows, a failed id-load on a nonempty store also triggers
the bootstrap, so the success of the load is a necessary condition.) -/
theorem C7_bootstrap_amended (s : GenState)
    (hcache : s.user_ids = []) (henv : s.env = []) :
    (s.db.users = [] →
      ((plannedProfiles 20 s.fake).map Prod.fst).Nodup →
      ((plannedProfiles 20 s.fake).map Prod.snd).Nodup →
      (DataGenerator.load_or_create_users s).db.users.length = 20 ∧
      ((DataGenerator.load_or_create_users s).db.users.map
        (fun u => u.username)).Nodup ∧
      ((DataGenerator.load_or_create_users s).db.users.map
        (fun u => u.email)).Nodup) ∧
    (s.db.users ≠ [] →
      (DataGenerator.load_or_create_users s).db = s.db) := by
  constructor
  · intro hempty hndu hnde
    have hg : DatabaseManager.get_user_ids s.db s.env = ([], []) := by
      simp [DatabaseManager.get_user_ids, takeEnv, henv, DB.userIds, hempty]
    have hload : DataGenerator.loadStep s =
        { s with user_ids := [], env := [] } := by
      unfold DataGenerator.loadStep
      rw [hg]
    unfold DataGenerator.load_or_create_users
    rw [hload, if_pos rfl]
    have hadds := DataGenerator.bootstrapLoop_adds 20
      { s with user_ids := ([] : List Nat), env := ([] : List Bool) }
      rfl
      (by
        intro p hp u hu
        rw [hempty] at hu
        exact absurd hu (List.not_mem_nil u))
      hndu hnde
    obtain ⟨hu, he⟩ := hadds
    rw [hempty] at hu he
    simp only [List.map_nil, List.nil_append] at hu he
    refine ⟨?_, ?_, ?_⟩
    · have hlen : ((DataGenerator.bootstrapLoop 20
          { s with user_ids := ([] : List Nat), env := ([] : List Bool)
          }).db.users.map (fun u => u.username)).length = 20 := by
        rw [hu, List.length_map, DataGenerator.plannedProfiles_length]
      rw [List.length_map] at hlen
      exact hlen
    · rw [hu]; exact hndu
    · rw [he]; exact hnde
  · intro hne
    have hg : DatabaseManager.get_user_ids s.db s.env =
        (s.db.userIds.take 100, []) := by
      simp [DatabaseManager.get_user_ids, takeEnv, henv]
    have hload : DataGenerator.loadStep s =
        { s with user_ids := s.db.userIds.take 100, env := [] } := by
      unfold DataGenerator.loadStep
      rw [hg]
    have hne' : ({ s with
        user_ids := s.db.userIds.take 100,
        env := ([] : List Bool) } : GenState).user_ids ≠ [] := by
      show s.db.userIds.take 100 ≠ []
      intro hcontra
      rcases (List.take_eq_nil_iff).1 hcontra with h100 | hids
      · exact absurd h100 (by omega)
      · unfold DB.userIds at hids
        exact hne (List.map_eq_nil.1 hids)
    unfold DataGenerator.load_or_create_users
    rw [hload, if_neg hne']

/-- C7 (witness): the bootstrap scenario at a concrete empty store. -/
theorem C7_witness :
    (sBoot.user_ids = [] ∧ sBoot.env = [] ∧ sBoot.db.users = [] ∧
     ((plannedProfiles 20 sBoot.fake).map Prod.fst).Nodup ∧
     ((plannedProfiles 20 sBoot.fake).map Prod.snd).Nodup) ∧
    ((DataGenerator.load_or_create_users sBoot).db.users.length = 20 ∧
     ((DataGenerator.load_or_create_users sBoot).db.users.map
       (fun u => u.username)).Nodup ∧
     ((DataGenerator.load_or_create_users sBoot).db.users.map
       (fun u => u.email)).Nodup) :=
  ⟨by decide,
   (C7_bootstrap_amended sBoot (by decide) (by decide)).1
     (by decide) (by decide) (by decide)⟩

/-- C8 (counterexample): two runs of 100 cycles with the *same* seed of
the `random` module (identical `rng` stream), the same storage behaviour
and the same initial store, but different Faker outputs — Faker keeps its
own independent generator — produce *different* event-kind sequences: in
the second run the opportunistic user insert hits the UNIQUE(username)
constraint, the user cache stays smaller, later cycles consume different
numbers of draws, and the kind decisions shift.  The kind sequence is
therefore not a function of the seed alone. -/
theorem C8_counterexample :
    sA.rng = sB.rng ∧ sA.env = sB.env ∧ sA.db = sB.db ∧
    sA.user_ids = sB.user_ids ∧
    (DataGenerator.run 100 sA).1 ≠ (DataGenerator.run 100 sB).1 := by
  refine ⟨rfl, rfl, rfl, rfl, ?_⟩
  intro h
  have hA : (DataGenerator.run 100 sA).1.getD 1 DataGenerator.EventKind.tweet =
      DataGenerator.EventKind.tweet := by rfl
  have hB : (DataGenerator.run 100 sB).1.getD 1 DataGenerator.EventKind.tweet =
      DataGenerator.EventKind.follow := by rfl
  rw [h] at hA
  rw [hA] at hB
  exact DataGenerator.EventKind.noConfusion hB

/-- C8 (amended): the event-kind sequence is a deterministic function of
the seed *together with* the Faker stream and the storage responses: two
runs of any length agreeing on the `random` stream, the Faker stream, the
storage-response stream, the cache and the store produce identical
event-kind sequences. -/
theorem C8_determinism_amended (n : Nat) (s₁ s₂ : GenState)
    (hids : s₁.user_ids = s₂.user_ids) (hrng : s₁.rng = s₂.rng)
    (hfake : s₁.fake = s₂.fake) (henv : s₁.env = s₂.env)
    (hdb : s₁.db = s₂.db) :
    (DataGenerator.run n s₁).1 = (DataGenerator.run n s₂).1 := by
  have hs : s₁ = s₂ := by
    cases s₁
    cases s₂
    simp_all
  rw [hs]

/-- C8 (witness): the amended determinism at the concrete run. -/
theorem C8_witness :
    (sA.user_ids = sA.user_ids ∧ sA.rng = sA.rng ∧ sA.fake = sA.fake ∧
     sA.env = sA.env ∧ sA.db = sA.db) ∧
    (DataGenerator.run 100 sA).1 = (DataGenerator.run 100 sA).1 :=
  ⟨⟨rfl, rfl, rfl, rfl, rfl⟩,
   C8_determinism_amended 100 sA sA rfl rfl rfl rfl rfl⟩

/-- C9 (confirmed, modelled from the spec: the scheduling engine is
APScheduler library code, not under `src/`): in every reachable state of
the per-slot `{Idle, Running}` machine at most one cycle is executing, and
a tick delivered while the slot is Running is dropped — it starts no new
cycle and leaves the state unchanged. -/
theorem C9_single_flight :
    (∀ evs : List Scheduler.SchedEvent, (Scheduler.schedExec evs).2 ≤ 1) ∧
    (∀ c : Nat,
      Scheduler.schedStep (Scheduler.SlotState.running, c)
        Scheduler.SchedEvent.tick = (Scheduler.SlotState.running, c)) := by
  constructor
  · intro evs
    rcases Scheduler.schedExec_inv evs with h | h <;> rw [h] <;> omega
  · intro c
    rfl

/-- C10 (confirmed): the cache invariant — the in-memory user-id list is
duplicate-free (`cacheInv`'s first conjunct), its entries are ids the
store has assigned, and the store's id column is itself duplicate-free —
is preserved by hydration/bootstrap (`load_or_create_users`), by both
generation methods (which contain the opportunistic user creation), and
by the full cycle. -/
theorem C10_cache_nodup (s : GenState) (h : cacheInv s) :
    cacheInv (DataGenerator.load_or_create_users s) ∧
    cacheInv (DataGenerator.generate_tweet_data s).2 ∧
    cacheInv (DataGenerator.generate_follow_data s).2 ∧
    cacheInv (DataGenerator.insert_random_data s) :=
  ⟨DataGenerator.load_or_create_users_inv s h,
   DataGenerator.generate_tweet_data_inv s h,
   DataGenerator.generate_follow_data_inv s h,
   DataGenerator.insert_random_data_inv s h⟩

/-- C10 (witness): the invariant and its preservation at a concrete
state. -/
theorem C10_witness :
    cacheInv sC2 ∧
    (cacheInv (DataGenerator.load_or_create_users sC2) ∧
     cacheInv (DataGenerator.generate_tweet_data sC2).2 ∧
     cacheInv (DataGenerator.generate_follow_data sC2).2 ∧
     cacheInv (DataGenerator.insert_random_data sC2)) :=
  ⟨by decide, C10_cache_nodup sC2 (by decide)⟩

end DataPipeline
